import Mathlib

/-!
# GD32 F1x0 ADC driver: register-level model

A shallow embedding of `lib/gd32/f1x0/adc.c` with the bit layout of
`include/libopencm3/gd32/common/adc_common.h`.

* A memory-mapped 32-bit register is a natural number; every store truncates
  to 32 bits (`u32`).
* The register block of one ADC is the record `AdcRegs`; the C argument `adc`
  (the base address) selects that block, so a driver function of type
  `void f(uint32_t adc, ...)` becomes a function `AdcRegs → ... → AdcRegs`.
* `REG |= v` and `REG &= v` are a read followed by a store.
* A register holds what software stored last (no hardware side effects).
* C `int` values are kept as their 32-bit two's-complement bit patterns.
* An argument of type `uint8_t` or `uint16_t` is truncated on entry (`u8`, `u16`).
* The array argument `const uint8_t channel[]` is the map from an index to the
  byte stored there.
-/

namespace Gd32Adc

/-! ## Machine integers -/

/-- Truncation to `uint32_t`. -/
def u32 (x : Nat) : Nat := x % 4294967296

/-- Truncation to `uint8_t`. -/
def u8 (x : Nat) : Nat := x % 256

/-- Truncation to `uint16_t`. -/
def u16 (x : Nat) : Nat := x % 65536

/-- C `~x` on a 32-bit pattern. -/
def not32 (x : Nat) : Nat := 4294967295 ^^^ u32 x

/-- C `x - y` on 32-bit patterns (wraps around). -/
def sub32 (x y : Nat) : Nat := u32 (u32 x + 4294967296 - u32 y)

/-- C `x << s` on a 32-bit pattern. -/
def shl32 (x s : Nat) : Nat := u32 (x <<< s)

/-! ## Register block (adc_common.h, "ADC registers") -/

/-- Registers of one ADC block, in the order of their offsets. -/
structure AdcRegs where
  STAT : Nat
  CTL0 : Nat
  CTL1 : Nat
  SAMPT0 : Nat
  SAMPT1 : Nat
  IOFF0 : Nat
  IOFF1 : Nat
  IOFF2 : Nat
  IOFF3 : Nat
  WDHT : Nat
  WDLT : Nat
  RSQ0 : Nat
  RSQ1 : Nat
  RSQ2 : Nat
  ISQ : Nat
  IDATA0 : Nat
  IDATA1 : Nat
  IDATA2 : Nat
  IDATA3 : Nat
  RDATA : Nat
  OVSAMPCTL : Nat
deriving DecidableEq, Repr

/-- The block after reset: every register reads zero. -/
def AdcRegs.zero : AdcRegs :=
  ⟨0, 0, 0, 0, 0, 0, 0, 0, 0, 0, 0, 0, 0, 0, 0, 0, 0, 0, 0, 0, 0⟩

/-! ## Bit layout constants (adc_common.h) -/

def ADC_SAMPT0_SPT_SHIFT (x : Nat) : Nat := u32 (3 * sub32 x 10)
def ADC_SAMPT1_SPT_SHIFT (x : Nat) : Nat := 3 * x
def ADC_SAMPT_MASK : Nat := 0x07

def ADC_SAMPT0_SPT17_SHIFT : Nat := 21
def ADC_SAMPT0_SPT16_SHIFT : Nat := 18
def ADC_SAMPT0_SPT15_SHIFT : Nat := 15
def ADC_SAMPT0_SPT14_SHIFT : Nat := 12
def ADC_SAMPT0_SPT13_SHIFT : Nat := 9
def ADC_SAMPT0_SPT12_SHIFT : Nat := 6
def ADC_SAMPT0_SPT11_SHIFT : Nat := 3
def ADC_SAMPT0_SPT10_SHIFT : Nat := 0

def ADC_SAMPT1_SPT9_SHIFT : Nat := 27
def ADC_SAMPT1_SPT8_SHIFT : Nat := 24
def ADC_SAMPT1_SPT7_SHIFT : Nat := 21
def ADC_SAMPT1_SPT6_SHIFT : Nat := 18
def ADC_SAMPT1_SPT5_SHIFT : Nat := 15
def ADC_SAMPT1_SPT4_SHIFT : Nat := 12
def ADC_SAMPT1_SPT3_SHIFT : Nat := 9
def ADC_SAMPT1_SPT2_SHIFT : Nat := 6
def ADC_SAMPT1_SPT1_SHIFT : Nat := 3
def ADC_SAMPT1_SPT0_SHIFT : Nat := 0

def ADC_WDHT_MASK : Nat := 0x00000FFF
def ADC_WDLT_MASK : Nat := 0x00000FFF

def ADC_RSQ0_RL_SHIFT : Nat := 20
def ADC_RSQ0_RL_MASK : Nat := 0x0F <<< ADC_RSQ0_RL_SHIFT
def ADC_RSQ0_RL_VAL (x : Nat) : Nat := shl32 (sub32 x 1) ADC_RSQ0_RL_SHIFT

def ADC_RSQ0_RSQ15_SHIFT : Nat := 15
def ADC_RSQ0_RSQ14_SHIFT : Nat := 10
def ADC_RSQ0_RSQ13_SHIFT : Nat := 5
def ADC_RSQ0_RSQ12_SHIFT : Nat := 0

def ADC_RSQ1_RSQ11_SHIFT : Nat := 25
def ADC_RSQ1_RSQ10_SHIFT : Nat := 20
def ADC_RSQ1_RSQ9_SHIFT : Nat := 15
def ADC_RSQ1_RSQ8_SHIFT : Nat := 10
def ADC_RSQ1_RSQ7_SHIFT : Nat := 5
def ADC_RSQ1_RSQ6_SHIFT : Nat := 0

def ADC_RSQ2_RSQ5_SHIFT : Nat := 25
def ADC_RSQ2_RSQ4_SHIFT : Nat := 20
def ADC_RSQ2_RSQ3_SHIFT : Nat := 15
def ADC_RSQ2_RSQ2_SHIFT : Nat := 10
def ADC_RSQ2_RSQ1_SHIFT : Nat := 5
def ADC_RSQ2_RSQ0_SHIFT : Nat := 0

def ADC_ISQ_IL_SHIFT : Nat := 20
def ADC_ISQ_IL_MASK : Nat := 0x03 <<< ADC_ISQ_IL_SHIFT
def ADC_ISQ_IL_VAL (x : Nat) : Nat := shl32 x ADC_ISQ_IL_SHIFT

def ADC_ISQ_ISQ3_SHIFT : Nat := 15
def ADC_ISQ_ISQ2_SHIFT : Nat := 10
def ADC_ISQ_ISQ1_SHIFT : Nat := 5
def ADC_ISQ_ISQ0_SHIFT : Nat := 0

def ADC_STAT_STRC : Nat := 1 <<< 4
def ADC_STAT_STIC : Nat := 1 <<< 3
def ADC_STAT_EOIC : Nat := 1 <<< 2
def ADC_STAT_EOC : Nat := 1 <<< 1
def ADC_STAT_WDE : Nat := 1 <<< 0

def ADC_CTL0_DISNUM_SHIFT : Nat := 13
def ADC_CTL0_DISNUM : Nat := 0x07 <<< ADC_CTL0_DISNUM_SHIFT
def ADC_CTL0_DISNUM_VAL (x : Nat) : Nat := shl32 x ADC_CTL0_DISNUM_SHIFT
def ADC_CTL0_DISIC : Nat := 1 <<< 12
def ADC_CTL0_DISRC : Nat := 1 <<< 11
def ADC_CTL0_SM : Nat := 1 <<< 8
def ADC_CTL0_EOICIE : Nat := 1 <<< 7
def ADC_CTL0_WDEIE : Nat := 1 <<< 6
def ADC_CTL0_EOCIE : Nat := 1 <<< 5

def ADC_CTL1_VBATEN : Nat := 1 <<< 24
def ADC_CTL1_TSVREN : Nat := 1 <<< 23
def ADC_CTL1_SWRCST : Nat := 1 <<< 22
def ADC_CTL1_ETERC : Nat := 1 <<< 20
def ADC_CTL1_ETSRC_SHIFT : Nat := 17
def ADC_CTL1_ETSRC_MASK : Nat := 0x07 <<< ADC_CTL1_ETSRC_SHIFT
def ADC_CTL1_DAL : Nat := 1 <<< 11
def ADC_CTL1_DMA : Nat := 1 <<< 8
def ADC_CTL1_CTN : Nat := 1 <<< 1
def ADC_CTL1_ADCON : Nat := 1 <<< 0

/-- The `int` that a 32-bit pattern stands for. -/
def toInt32 (x : Nat) : Int :=
  if u32 x < 2147483648 then (u32 x : Int) else (u32 x : Int) - 4294967296

/-- Operation modes, `enum adc_opmode` of `gd32/f1x0/adc.h`. -/
inductive adc_opmode where
  | ADC_MODE_SINGLE
  | ADC_MODE_CONTINUOUS
  | ADC_MODE_SCAN
  | ADC_MODE_SCAN_CONTINUOUS
deriving DecidableEq, Repr

/-! ## Driver functions (lib/gd32/f1x0/adc.c) -/

/-- Store `ADC_RSQ0(adc) |= v`. -/
def orRSQ0 (r : AdcRegs) (v : Nat) : AdcRegs := { r with RSQ0 := u32 (r.RSQ0 ||| v) }

/-- Store `ADC_RSQ1(adc) |= v`. -/
def orRSQ1 (r : AdcRegs) (v : Nat) : AdcRegs := { r with RSQ1 := u32 (r.RSQ1 ||| v) }

/-- Store `ADC_RSQ2(adc) |= v`. -/
def orRSQ2 (r : AdcRegs) (v : Nat) : AdcRegs := { r with RSQ2 := u32 (r.RSQ2 ||| v) }

/-- Store `ADC_ISQ(adc) |= v`. -/
def orISQ (r : AdcRegs) (v : Nat) : AdcRegs := { r with ISQ := u32 (r.ISQ ||| v) }

/-- Source: `void adc_set_regular_sequence(uint32_t adc, uint8_t length, const uint8_t channel[])`. -/
def adc_set_regular_sequence (r : AdcRegs) (length : Nat) (channel : Nat → Nat) : AdcRegs :=
  let length := u8 length
  let ch := fun i => u8 (channel i)
  let r := { r with RSQ0 := u32 (r.RSQ0 &&& not32 ADC_RSQ0_RL_MASK) }
  let r := orRSQ0 r (ADC_RSQ0_RL_VAL length &&& ADC_RSQ0_RL_MASK)
  if length = 0 then r else
  let r := if length > 0 then orRSQ2 r (shl32 (ch 0) ADC_RSQ2_RSQ0_SHIFT) else r
  let r := if length > 1 then orRSQ2 r (shl32 (ch 1) ADC_RSQ2_RSQ1_SHIFT) else r
  let r := if length > 2 then orRSQ2 r (shl32 (ch 2) ADC_RSQ2_RSQ2_SHIFT) else r
  let r := if length > 3 then orRSQ2 r (shl32 (ch 3) ADC_RSQ2_RSQ3_SHIFT) else r
  let r := if length > 4 then orRSQ2 r (shl32 (ch 4) ADC_RSQ2_RSQ4_SHIFT) else r
  let r := if length > 5 then orRSQ2 r (shl32 (ch 5) ADC_RSQ2_RSQ5_SHIFT) else r
  let r := if length > 6 then orRSQ1 r (shl32 (ch 6) ADC_RSQ1_RSQ6_SHIFT) else r
  let r := if length > 7 then orRSQ1 r (shl32 (ch 7) ADC_RSQ1_RSQ7_SHIFT) else r
  let r := if length > 8 then orRSQ1 r (shl32 (ch 8) ADC_RSQ1_RSQ8_SHIFT) else r
  let r := if length > 9 then orRSQ1 r (shl32 (ch 9) ADC_RSQ1_RSQ9_SHIFT) else r
  let r := if length > 10 then orRSQ1 r (shl32 (ch 10) ADC_RSQ1_RSQ10_SHIFT) else r
  let r := if length > 11 then orRSQ1 r (shl32 (ch 11) ADC_RSQ1_RSQ11_SHIFT) else r
  let r := if length > 12 then orRSQ0 r (shl32 (ch 12) ADC_RSQ0_RSQ12_SHIFT) else r
  let r := if length > 13 then orRSQ0 r (shl32 (ch 13) ADC_RSQ0_RSQ13_SHIFT) else r
  let r := if length > 14 then orRSQ0 r (shl32 (ch 14) ADC_RSQ0_RSQ14_SHIFT) else r
  let r := if length > 15 then orRSQ0 r (shl32 (ch 15) ADC_RSQ0_RSQ15_SHIFT) else r
  r

/-- Source: `void adc_set_inserted_sequence(uint32_t adc, uint8_t length, const uint8_t channel[])`. -/
def adc_set_inserted_sequence (r : AdcRegs) (length : Nat) (channel : Nat → Nat) : AdcRegs :=
  let length := u8 length
  let ch := fun i => u8 (channel i)
  let r := { r with ISQ := u32 (r.ISQ &&& not32 ADC_ISQ_IL_MASK) }
  let r := orISQ r (ADC_ISQ_IL_VAL (sub32 length 1) &&& ADC_ISQ_IL_MASK)
  if length = 0 then r else
  let r := if length = 1 then
      orISQ r (shl32 (ch 0) ADC_ISQ_ISQ3_SHIFT)
    else r
  let r := if length = 2 then
      let r := orISQ r (shl32 (ch 0) ADC_ISQ_ISQ2_SHIFT)
      orISQ r (shl32 (ch 1) ADC_ISQ_ISQ3_SHIFT)
    else r
  let r := if length = 3 then
      let r := orISQ r (shl32 (ch 0) ADC_ISQ_ISQ1_SHIFT)
      let r := orISQ r (shl32 (ch 1) ADC_ISQ_ISQ2_SHIFT)
      orISQ r (shl32 (ch 2) ADC_ISQ_ISQ3_SHIFT)
    else r
  let r := if length = 4 then
      let r := orISQ r (shl32 (ch 0) ADC_ISQ_ISQ0_SHIFT)
      let r := orISQ r (shl32 (ch 1) ADC_ISQ_ISQ1_SHIFT)
      let r := orISQ r (shl32 (ch 2) ADC_ISQ_ISQ2_SHIFT)
      orISQ r (shl32 (ch 3) ADC_ISQ_ISQ3_SHIFT)
    else r
  r

/-- Source: `void adc_set_sample_time_on_channel(uint32_t adc, uint8_t channel, uint8_t time)`. -/
def adc_set_sample_time_on_channel (r : AdcRegs) (channel time : Nat) : AdcRegs :=
  let channel := u8 channel
  let time := u8 time
  if channel < 10 then
    let m := shl32 ADC_SAMPT_MASK (ADC_SAMPT1_SPT_SHIFT channel)
    let r := { r with SAMPT1 := u32 (r.SAMPT1 &&& m) }
    let v := shl32 (time &&& ADC_SAMPT_MASK) (ADC_SAMPT1_SPT_SHIFT channel)
    { r with SAMPT1 := u32 (r.SAMPT1 ||| v) }
  else if channel < 18 then
    let m := shl32 ADC_SAMPT_MASK (ADC_SAMPT0_SPT_SHIFT channel)
    let r := { r with SAMPT0 := u32 (r.SAMPT0 &&& m) }
    let v := shl32 (time &&& ADC_SAMPT_MASK) (ADC_SAMPT0_SPT_SHIFT channel)
    { r with SAMPT0 := u32 (r.SAMPT0 ||| v) }
  else r

/-- Source: `void adc_set_watchdog_high_threshold(uint32_t adc, uint16_t threshold)`. -/
def adc_set_watchdog_high_threshold (r : AdcRegs) (threshold : Nat) : AdcRegs :=
  { r with WDHT := u32 (u16 threshold &&& not32 ADC_WDHT_MASK) }

/-- Source: `void adc_set_watchdog_low_threshold(uint32_t adc, uint16_t threshold)`. -/
def adc_set_watchdog_low_threshold (r : AdcRegs) (threshold : Nat) : AdcRegs :=
  { r with WDLT := u32 (u16 threshold &&& not32 ADC_WDLT_MASK) }

/-- Store `ADC_CTL0(adc) |= v`. -/
def orCTL0 (r : AdcRegs) (v : Nat) : AdcRegs := { r with CTL0 := u32 (r.CTL0 ||| v) }

/-- Store `ADC_CTL0(adc) &= v`. -/
def andCTL0 (r : AdcRegs) (v : Nat) : AdcRegs := { r with CTL0 := u32 (r.CTL0 &&& v) }

/-- Store `ADC_CTL1(adc) |= v`. -/
def orCTL1 (r : AdcRegs) (v : Nat) : AdcRegs := { r with CTL1 := u32 (r.CTL1 ||| v) }

/-- Store `ADC_CTL1(adc) &= v`. -/
def andCTL1 (r : AdcRegs) (v : Nat) : AdcRegs := { r with CTL1 := u32 (r.CTL1 &&& v) }

/-- Store `ADC_STAT(adc) &= v`. -/
def andSTAT (r : AdcRegs) (v : Nat) : AdcRegs := { r with STAT := u32 (r.STAT &&& v) }

/-- Source: `void adc_enable_regular_discontinuous_mode(uint32_t adc, uint8_t length)`.
The test `(length-1) > 7` is a comparison of `int`s. -/
def adc_enable_regular_discontinuous_mode (r : AdcRegs) (length : Nat) : AdcRegs :=
  let length := u8 length
  if toInt32 (sub32 length 1) > 7 then r else
  let r := orCTL0 r ADC_CTL0_DISRC
  let r := andCTL0 r (not32 ADC_CTL0_DISNUM)
  orCTL0 r (ADC_CTL0_DISNUM_VAL (sub32 length 1))

/-- Source: `void adc_enable_inserted_discontinuous_mode(uint32_t adc)`. -/
def adc_enable_inserted_discontinuous_mode (r : AdcRegs) : AdcRegs :=
  orCTL0 r ADC_CTL0_DISIC

/-- Source: `void adc_disable_inserted_discontinuous_mode(uint32_t adc)`. -/
def adc_disable_inserted_discontinuous_mode (r : AdcRegs) : AdcRegs :=
  andCTL0 r (not32 ADC_CTL0_DISIC)

/-- Source: `void adc_set_operation_mode(uint32_t adc, enum adc_opmode opmode)`. -/
def adc_set_operation_mode (r : AdcRegs) (opmode : adc_opmode) : AdcRegs :=
  match opmode with
  | .ADC_MODE_SINGLE =>
    let r := andCTL0 r (not32 (ADC_CTL0_DISIC ||| ADC_CTL0_DISRC ||| ADC_CTL0_SM))
    andCTL1 r (not32 ADC_CTL1_CTN)
  | .ADC_MODE_CONTINUOUS =>
    let r := andCTL0 r (not32 (ADC_CTL0_DISIC ||| ADC_CTL0_DISRC ||| ADC_CTL0_SM))
    orCTL1 r ADC_CTL1_CTN
  | .ADC_MODE_SCAN =>
    let r := andCTL0 r (not32 (ADC_CTL0_DISIC ||| ADC_CTL0_DISRC))
    let r := orCTL0 r ADC_CTL0_SM
    andCTL1 r (not32 ADC_CTL1_CTN)
  | .ADC_MODE_SCAN_CONTINUOUS =>
    let r := andCTL0 r (not32 (ADC_CTL0_DISIC ||| ADC_CTL0_DISRC))
    let r := orCTL0 r ADC_CTL0_SM
    orCTL1 r ADC_CTL1_CTN

/-- Source: `void adc_enable_external_trigger_regular(uint32_t adc, uint32_t trigger)`. -/
def adc_enable_external_trigger_regular (r : AdcRegs) (trigger : Nat) : AdcRegs :=
  let trigger := u32 trigger
  let r := andCTL1 r (not32 ADC_CTL1_ETSRC_MASK)
  let r := orCTL1 r (trigger &&& ADC_CTL1_ETSRC_MASK)
  orCTL1 r ADC_CTL1_ETERC

/-- Source: `void adc_enable_watchdog_interrupt(uint32_t adc)`. -/
def adc_enable_watchdog_interrupt (r : AdcRegs) : AdcRegs := orCTL0 r ADC_CTL0_WDEIE

/-- Source: `void adc_disable_watchdog_interrupt(uint32_t adc)`. -/
def adc_disable_watchdog_interrupt (r : AdcRegs) : AdcRegs := andCTL0 r (not32 ADC_CTL0_WDEIE)

/-- Source: `bool adc_get_watchdog_flag(uint32_t adc)`; the `int` result of `&`
converts to `bool` as "not zero". -/
def adc_get_watchdog_flag (r : AdcRegs) : Bool := decide (r.STAT &&& ADC_STAT_WDE ≠ 0)

/-- Source: `void adc_clear_watchdog_flag(uint32_t adc)`. -/
def adc_clear_watchdog_flag (r : AdcRegs) : AdcRegs := andSTAT r (not32 ADC_STAT_WDE)

/-- Source: `void adc_enable_eoc_sequence_interrupt(uint32_t adc)`. -/
def adc_enable_eoc_sequence_interrupt (r : AdcRegs) : AdcRegs := orCTL0 r ADC_CTL0_EOCIE

/-- Source: `void adc_disable_eoc_sequence_interrupt(uint32_t adc)`. -/
def adc_disable_eoc_sequence_interrupt (r : AdcRegs) : AdcRegs :=
  andCTL0 r (not32 ADC_CTL0_EOCIE)

/-- Source: `bool adc_get_eoc_sequence_flag(uint32_t adc)`. -/
def adc_get_eoc_sequence_flag (r : AdcRegs) : Bool := decide (r.STAT &&& ADC_STAT_EOC ≠ 0)

/-- Source: `void adc_clear_eoc_sequence_flag(uint32_t adc)`, a plain store
`ADC_STAT(adc) = ADC_STAT_EOC`. -/
def adc_clear_eoc_sequence_flag (r : AdcRegs) : AdcRegs := { r with STAT := u32 ADC_STAT_EOC }

/-- Source: `void adc_enable_eoic_sequence_interrupt(uint32_t adc)`. -/
def adc_enable_eoic_sequence_interrupt (r : AdcRegs) : AdcRegs := orCTL0 r ADC_CTL0_EOICIE

/-- Source: `void adc_disable_eoic_sequence_interrupt(uint32_t adc)`. -/
def adc_disable_eoic_sequence_interrupt (r : AdcRegs) : AdcRegs :=
  andCTL0 r (not32 ADC_CTL0_EOICIE)

/-- Source: `bool adc_get_eoic_sequence_flag(uint32_t adc)`. -/
def adc_get_eoic_sequence_flag (r : AdcRegs) : Bool := decide (r.STAT &&& ADC_STAT_EOIC ≠ 0)

/-- Source: `void adc_clear_eoic_sequence_flag(uint32_t adc)`. -/
def adc_clear_eoic_sequence_flag (r : AdcRegs) : AdcRegs := andSTAT r (not32 ADC_STAT_EOIC)

/-- Source: `bool adc_get_strc_flag(uint32_t adc)`. -/
def adc_get_strc_flag (r : AdcRegs) : Bool := decide (r.STAT &&& ADC_STAT_STRC ≠ 0)

/-- Source: `void adc_clear_strc_flag(uint32_t adc)`. -/
def adc_clear_strc_flag (r : AdcRegs) : AdcRegs := andSTAT r (not32 ADC_STAT_STRC)

/-- Source: `bool adc_get_stic_flag(uint32_t adc)`. -/
def adc_get_stic_flag (r : AdcRegs) : Bool := decide (r.STAT &&& ADC_STAT_STIC ≠ 0)

/-- Source: `void adc_clear_stic_flag(uint32_t adc)`. -/
def adc_clear_stic_flag (r : AdcRegs) : AdcRegs := andSTAT r (not32 ADC_STAT_STIC)

/-- Source: `void adc_enable_vbat_sensor(uint32_t adc)`. -/
def adc_enable_vbat_sensor (r : AdcRegs) : AdcRegs := orCTL1 r ADC_CTL1_VBATEN

/-- Source: `void adc_disable_vbat_sensor(uint32_t adc)`. -/
def adc_disable_vbat_sensor (r : AdcRegs) : AdcRegs := andCTL1 r (not32 ADC_CTL1_VBATEN)

/-! ## Driver functions (lib/gd32/common/adc_common.c) -/

/-- Source: `void adc_power_on(uint32_t adc)`. -/
def adc_power_on (r : AdcRegs) : AdcRegs := orCTL1 r ADC_CTL1_ADCON

/-- Source: `void adc_power_off(uint32_t adc)`. -/
def adc_power_off (r : AdcRegs) : AdcRegs := andCTL1 r (not32 ADC_CTL1_ADCON)

/-- Source: `void adc_set_left_aligned(uint32_t adc)`. -/
def adc_set_left_aligned (r : AdcRegs) : AdcRegs := orCTL1 r ADC_CTL1_DAL

/-- Source: `void adc_set_right_aligned(uint32_t adc)`. -/
def adc_set_right_aligned (r : AdcRegs) : AdcRegs := andCTL1 r (not32 ADC_CTL1_DAL)

/-- Source: `void adc_enable_vref_temperature_sensor(uint32_t adc)`. -/
def adc_enable_vref_temperature_sensor (r : AdcRegs) : AdcRegs := orCTL1 r ADC_CTL1_TSVREN

/-- Source: `void adc_disable_vref_temperature_sensor(uint32_t adc)`. -/
def adc_disable_vref_temperature_sensor (r : AdcRegs) : AdcRegs :=
  andCTL1 r (not32 ADC_CTL1_TSVREN)

/-- Source: `void adc_enable_dma(uint32_t adc)`. -/
def adc_enable_dma (r : AdcRegs) : AdcRegs := orCTL1 r ADC_CTL1_DMA

/-- Source: `void adc_disable_dma(uint32_t adc)`. -/
def adc_disable_dma (r : AdcRegs) : AdcRegs := andCTL1 r (not32 ADC_CTL1_DMA)

/-- The loop `while (adc_get_strc_flag(adc) == 0);` of `adc_start_conversion_regular`,
allowed at most `fuel` tests of its condition; `none` when they are used up.
The body is empty, so the registers stay as they are between two tests. -/
def adc_start_conversion_regular_wait : Nat → AdcRegs → Option AdcRegs
  | 0, _ => none
  | fuel + 1, r =>
    if adc_get_strc_flag r = false then adc_start_conversion_regular_wait fuel r else some r

/-- Source: `void adc_start_conversion_regular(uint32_t adc)`, with the fuel of its loop. -/
def adc_start_conversion_regular (fuel : Nat) (r : AdcRegs) : Option AdcRegs :=
  let r := orCTL1 r ADC_CTL1_SWRCST
  adc_start_conversion_regular_wait fuel r

/-! ## Reading bit fields back -/

/-- The `w`-bit field of `x` that starts at bit `s`. -/
def bits (x s w : Nat) : Nat := (x >>> s) % 2 ^ w

/-- Sample-time field of `channel`: SAMPT1 for channels 0..9, SAMPT0 for 10..17. -/
def sampleTimeField (r : AdcRegs) (channel : Nat) : Nat :=
  if channel < 10 then bits r.SAMPT1 (3 * channel) 3
  else bits r.SAMPT0 (3 * (channel - 10)) 3

/-- The `i`-th 5-bit regular sequence field: RSQ2 for 0..5, RSQ1 for 6..11, RSQ0 above. -/
def regularSeqField (r : AdcRegs) (i : Nat) : Nat :=
  if i < 6 then bits r.RSQ2 (5 * i) 5
  else if i < 12 then bits r.RSQ1 (5 * (i - 6)) 5
  else bits r.RSQ0 (5 * (i - 12)) 5

/-- Programmed regular group length: the RL field (RSQ0 bits 20..23) plus one. -/
def regularLength (r : AdcRegs) : Nat := bits r.RSQ0 20 4 + 1

/-- The `i`-th 5-bit inserted sequence field of ISQ. -/
def insertedSeqField (r : AdcRegs) (i : Nat) : Nat := bits r.ISQ (5 * i) 5

/-- The IL field (ISQ bits 20..21). -/
def insertedIL (r : AdcRegs) : Nat := bits r.ISQ 20 2

/-- Programmed inserted group length: the IL field plus one. -/
def insertedLength (r : AdcRegs) : Nat := insertedIL r + 1

/-- The regular group as read back from the registers: the programmed length
and the sequence fields up to it, in conversion order. -/
def regularSequence (r : AdcRegs) : List Nat :=
  (List.range (regularLength r)).map (regularSeqField r)

/-- The byte the `k`-th step of `adc_set_regular_sequence` ORs in: `channel[k]`
when the step runs, nothing otherwise. -/
def stepByte (length : Nat) (channel : Nat → Nat) (k : Nat) : Nat :=
  if k < u8 length then u8 (channel k) else 0

/-- The group (4, 7, 18) as an array argument. -/
def group3 : Nat → Nat := fun i => [4, 7, 18].getD i 0

/-- Bit `k` of `y` is set and every other bit of `y` is as in `x`. -/
def bitSetOnly (x y k : Nat) : Prop :=
  y.testBit k = true ∧ ∀ i, i ≠ k → y.testBit i = x.testBit i

/-- Bit `k` of `y` is clear and every other bit of `y` is as in `x`. -/
def bitClearOnly (x y k : Nat) : Prop :=
  y.testBit k = false ∧ ∀ i, i ≠ k → y.testBit i = x.testBit i

/-- Every register of `s` other than STAT is as in `r`. -/
def sameButSTAT (r s : AdcRegs) : Prop := { s with STAT := r.STAT } = r

/-- Every register of `s` other than CTL0 is as in `r`. -/
def sameButCTL0 (r s : AdcRegs) : Prop := { s with CTL0 := r.CTL0 } = r

/-- Every register of `s` other than CTL1 is as in `r`. -/
def sameButCTL1 (r s : AdcRegs) : Prop := { s with CTL1 := r.CTL1 } = r

/-- Every register of `s` other than CTL0 and CTL1 is as in `r`. -/
def sameButCTL (r s : AdcRegs) : Prop := { s with CTL0 := r.CTL0, CTL1 := r.CTL1 } = r

/-- The function `f` sets bit `k` of CTL0 and changes nothing else. -/
def setsBitCTL0 (f : AdcRegs → AdcRegs) (r : AdcRegs) (k : Nat) : Prop :=
  bitSetOnly r.CTL0 (f r).CTL0 k ∧ sameButCTL0 r (f r)

/-- The function `f` clears bit `k` of CTL0 and changes nothing else. -/
def clearsBitCTL0 (f : AdcRegs → AdcRegs) (r : AdcRegs) (k : Nat) : Prop :=
  bitClearOnly r.CTL0 (f r).CTL0 k ∧ sameButCTL0 r (f r)

/-- The function `f` sets bit `k` of CTL1 and changes nothing else. -/
def setsBitCTL1 (f : AdcRegs → AdcRegs) (r : AdcRegs) (k : Nat) : Prop :=
  bitSetOnly r.CTL1 (f r).CTL1 k ∧ sameButCTL1 r (f r)

/-- The function `f` clears bit `k` of CTL1 and changes nothing else. -/
def clearsBitCTL1 (f : AdcRegs → AdcRegs) (r : AdcRegs) (k : Nat) : Prop :=
  bitClearOnly r.CTL1 (f r).CTL1 k ∧ sameButCTL1 r (f r)

/-- A register block with the STRC flag set and mixed control bits. -/
def sampleRegs : AdcRegs :=
  { AdcRegs.zero with STAT := 0x10, CTL0 := 0x00C0FFEE, CTL1 := 0x0BADF00D }

/-! ## The bit-layout table (adc_common.h) -/

/-- The named shifts `ADC_SAMPT1_SPTn_SHIFT`, n = 0..9. -/
def sampt1NamedShifts : List Nat :=
  [ADC_SAMPT1_SPT0_SHIFT, ADC_SAMPT1_SPT1_SHIFT, ADC_SAMPT1_SPT2_SHIFT, ADC_SAMPT1_SPT3_SHIFT,
   ADC_SAMPT1_SPT4_SHIFT, ADC_SAMPT1_SPT5_SHIFT, ADC_SAMPT1_SPT6_SHIFT, ADC_SAMPT1_SPT7_SHIFT,
   ADC_SAMPT1_SPT8_SHIFT, ADC_SAMPT1_SPT9_SHIFT]

/-- The named shifts `ADC_SAMPT0_SPTn_SHIFT`, n = 10..17. -/
def sampt0NamedShifts : List Nat :=
  [ADC_SAMPT0_SPT10_SHIFT, ADC_SAMPT0_SPT11_SHIFT, ADC_SAMPT0_SPT12_SHIFT, ADC_SAMPT0_SPT13_SHIFT,
   ADC_SAMPT0_SPT14_SHIFT, ADC_SAMPT0_SPT15_SHIFT, ADC_SAMPT0_SPT16_SHIFT, ADC_SAMPT0_SPT17_SHIFT]

/-- The named shifts of the regular sequence positions 0..15 (RSQ2, RSQ1, RSQ0). -/
def rsqNamedShifts : List Nat :=
  [ADC_RSQ2_RSQ0_SHIFT, ADC_RSQ2_RSQ1_SHIFT, ADC_RSQ2_RSQ2_SHIFT, ADC_RSQ2_RSQ3_SHIFT,
   ADC_RSQ2_RSQ4_SHIFT, ADC_RSQ2_RSQ5_SHIFT, ADC_RSQ1_RSQ6_SHIFT, ADC_RSQ1_RSQ7_SHIFT,
   ADC_RSQ1_RSQ8_SHIFT, ADC_RSQ1_RSQ9_SHIFT, ADC_RSQ1_RSQ10_SHIFT, ADC_RSQ1_RSQ11_SHIFT,
   ADC_RSQ0_RSQ12_SHIFT, ADC_RSQ0_RSQ13_SHIFT, ADC_RSQ0_RSQ14_SHIFT, ADC_RSQ0_RSQ15_SHIFT]

/-- The named shifts of the inserted sequence positions 0..3. -/
def isqNamedShifts : List Nat :=
  [ADC_ISQ_ISQ0_SHIFT, ADC_ISQ_ISQ1_SHIFT, ADC_ISQ_ISQ2_SHIFT, ADC_ISQ_ISQ3_SHIFT]

/-- Mask of a 5-bit sequence field at shift `s`. -/
def seqFieldMask (s : Nat) : Nat := 0x1F <<< s

/-- Masks of the sample-time fields of SAMPT1, from the computed shifts. -/
def sampt1FieldMasks : List Nat :=
  (List.range 10).map (fun n => ADC_SAMPT_MASK <<< ADC_SAMPT1_SPT_SHIFT n)

/-- Masks of the sample-time fields of SAMPT0, from the computed shifts. -/
def sampt0FieldMasks : List Nat :=
  [10, 11, 12, 13, 14, 15, 16, 17].map (fun n => ADC_SAMPT_MASK <<< ADC_SAMPT0_SPT_SHIFT n)

/-- Masks of the fields of RSQ2: positions 0..5. -/
def rsq2FieldMasks : List Nat :=
  [seqFieldMask ADC_RSQ2_RSQ0_SHIFT, seqFieldMask ADC_RSQ2_RSQ1_SHIFT,
   seqFieldMask ADC_RSQ2_RSQ2_SHIFT, seqFieldMask ADC_RSQ2_RSQ3_SHIFT,
   seqFieldMask ADC_RSQ2_RSQ4_SHIFT, seqFieldMask ADC_RSQ2_RSQ5_SHIFT]

/-- Masks of the fields of RSQ1: positions 6..11. -/
def rsq1FieldMasks : List Nat :=
  [seqFieldMask ADC_RSQ1_RSQ6_SHIFT, seqFieldMask ADC_RSQ1_RSQ7_SHIFT,
   seqFieldMask ADC_RSQ1_RSQ8_SHIFT, seqFieldMask ADC_RSQ1_RSQ9_SHIFT,
   seqFieldMask ADC_RSQ1_RSQ10_SHIFT, seqFieldMask ADC_RSQ1_RSQ11_SHIFT]

/-- Masks of the fields of RSQ0: positions 12..15 and RL. -/
def rsq0FieldMasks : List Nat :=
  [seqFieldMask ADC_RSQ0_RSQ12_SHIFT, seqFieldMask ADC_RSQ0_RSQ13_SHIFT,
   seqFieldMask ADC_RSQ0_RSQ14_SHIFT, seqFieldMask ADC_RSQ0_RSQ15_SHIFT, ADC_RSQ0_RL_MASK]

/-- Masks of the fields of ISQ: positions 0..3 and IL. -/
def isqFieldMasks : List Nat :=
  [seqFieldMask ADC_ISQ_ISQ0_SHIFT, seqFieldMask ADC_ISQ_ISQ1_SHIFT,
   seqFieldMask ADC_ISQ_ISQ2_SHIFT, seqFieldMask ADC_ISQ_ISQ3_SHIFT, ADC_ISQ_IL_MASK]

/-- The masks share no bit pairwise and each lies inside 32 bits. -/
def disjointIn32 (ms : List Nat) : Prop :=
  ms.Pairwise (fun a b => a &&& b = 0) ∧ ∀ m ∈ ms, m < 4294967296

/-! ## Bit-level lemmas -/

theorem testBit_u32 (x i : Nat) : (u32 x).testBit i = (decide (i < 32) && x.testBit i) := by
  have h : (4294967296 : Nat) = 2 ^ 32 := by norm_num
  unfold u32
  rw [h, Nat.testBit_mod_two_pow]

theorem testBit_bits (x s w i : Nat) :
    (bits x s w).testBit i = (decide (i < w) && x.testBit (s + i)) := by
  unfold bits
  rw [Nat.testBit_mod_two_pow, Nat.testBit_shiftRight]

theorem testBit_small {v n i : Nat} (hv : v < 2 ^ n) (hi : n ≤ i) : v.testBit i = false :=
  Nat.testBit_lt_two_pow (Nat.lt_of_lt_of_le hv (Nat.pow_le_pow_right (by decide) hi))

theorem bits_u32 (x s w : Nat) (h : s + w ≤ 32) : bits (u32 x) s w = bits x s w := by
  apply Nat.eq_of_testBit_eq
  intro i
  rw [testBit_bits, testBit_bits, testBit_u32]
  by_cases hi : i < w
  · have : s + i < 32 := by omega
    simp [hi, this]
  · simp [hi]

theorem bits_or (x y s w : Nat) : bits (x ||| y) s w = bits x s w ||| bits y s w := by
  apply Nat.eq_of_testBit_eq
  intro i
  simp only [testBit_bits, Nat.testBit_or]
  cases decide (i < w) <;> simp

theorem bits_and (x y s w : Nat) : bits (x &&& y) s w = bits x s w &&& bits y s w := by
  apply Nat.eq_of_testBit_eq
  intro i
  simp only [testBit_bits, Nat.testBit_and]
  cases decide (i < w) <;> simp

theorem bits_zero (s w : Nat) : bits 0 s w = 0 := by
  simp [bits]

/-- A value of `n` bits shifted to position `s` reads back from the field at `s`. -/
theorem bits_shl32_same (n v s : Nat) (hv : v < 2 ^ n) (hs : s + n ≤ 32) :
    bits (shl32 v s) s n = v := by
  apply Nat.eq_of_testBit_eq
  intro i
  rw [testBit_bits, shl32, testBit_u32, Nat.testBit_shiftLeft]
  by_cases hi : i < n
  · have h1 : s + i < 32 := by omega
    have h2 : s + i ≥ s := by omega
    simp [hi, h1, h2]
  · simp [hi, testBit_small hv (Nat.le_of_not_lt hi)]

/-- A value of `n` bits shifted to position `sk` does not reach a field above it. -/
theorem bits_shl32_below (n v sk s w : Nat) (hv : v < 2 ^ n) (hs : sk + n ≤ s) :
    bits (shl32 v sk) s w = 0 := by
  apply Nat.eq_of_testBit_eq
  intro i
  rw [testBit_bits, shl32, testBit_u32, Nat.testBit_shiftLeft]
  have h : v.testBit (s + i - sk) = false := testBit_small hv (by omega)
  simp [h]

/-- A value shifted to position `sk` does not reach a field that ends below `sk`. -/
theorem bits_shl32_above (v sk s w : Nat) (hs : s + w ≤ sk) :
    bits (shl32 v sk) s w = 0 := by
  apply Nat.eq_of_testBit_eq
  intro i
  rw [testBit_bits, shl32, testBit_u32, Nat.testBit_shiftLeft]
  by_cases hi : i < w
  · have h2 : ¬ (s + i ≥ sk) := by omega
    simp [h2]
  · simp [hi]

theorem shl32_zero (s : Nat) : shl32 0 s = 0 := by
  simp [shl32, u32]

/-- The mask of an `n`-bit field at position `p`, as the header writes it. -/
theorem testBit_fieldMask (n p j : Nat) :
    ((2 ^ n - 1) <<< p).testBit j = (decide (j ≥ p) && decide (j - p < n)) := by
  rw [Nat.testBit_shiftLeft, Nat.testBit_two_pow_sub_one]

theorem testBit_not32 (x j : Nat) :
    (not32 x).testBit j = (decide (j < 32) && !x.testBit j) := by
  have h : (4294967295 : Nat) = 2 ^ 32 - 1 := by norm_num
  unfold not32
  rw [Nat.testBit_xor, h, Nat.testBit_two_pow_sub_one, testBit_u32]
  cases decide (j < 32) <;> simp

/-- Clearing the field `n` at `p` leaves a field that lies below or above it alone. -/
theorem bits_clear_other (n p x s w : Nat) (hsw : s + w ≤ 32) (h : s + w ≤ p ∨ p + n ≤ s) :
    bits (x &&& not32 ((2 ^ n - 1) <<< p)) s w = bits x s w := by
  apply Nat.eq_of_testBit_eq
  intro i
  rw [testBit_bits, testBit_bits, Nat.testBit_and, testBit_not32, testBit_fieldMask]
  by_cases hi : i < w
  · have h1 : s + i < 32 := by omega
    have h2 : ¬ (s + i ≥ p ∧ s + i - p < n) := by omega
    have h3 : (decide (s + i ≥ p) && decide (s + i - p < n)) = false := by
      simpa using h2
    simp [h1, h3]
  · simp [hi]

/-- Clearing the field `n` at `p` makes it read zero. -/
theorem bits_clear_self (n p x : Nat) : bits (x &&& not32 ((2 ^ n - 1) <<< p)) p n = 0 := by
  apply Nat.eq_of_testBit_eq
  intro i
  rw [testBit_bits, Nat.testBit_and, testBit_not32, testBit_fieldMask]
  by_cases hi : i < n
  · have h2 : p + i ≥ p ∧ p + i - p < n := by omega
    have h3 : (decide (p + i ≥ p) && decide (p + i - p < n)) = true := by
      simpa using h2
    rw [h3]
    simp
  · simp [hi]

/-- A value masked to the field `n` at `p` has no bit in a field below or above. -/
theorem bits_masked_other (n p x s w : Nat) (h : s + w ≤ p ∨ p + n ≤ s) :
    bits (x &&& ((2 ^ n - 1) <<< p)) s w = 0 := by
  apply Nat.eq_of_testBit_eq
  intro i
  rw [testBit_bits, Nat.testBit_and, testBit_fieldMask]
  by_cases hi : i < w
  · have h2 : ¬ (s + i ≥ p ∧ s + i - p < n) := by omega
    have h3 : (decide (s + i ≥ p) && decide (s + i - p < n)) = false := by
      simpa using h2
    simp [h3]
  · simp [hi]

/-- A value shifted into the field `n` at `p` and masked reads back modulo `2 ^ n`. -/
theorem bits_masked_self (n p v : Nat) (hp : p + n ≤ 32) :
    bits (shl32 v p &&& ((2 ^ n - 1) <<< p)) p n = v % 2 ^ n := by
  apply Nat.eq_of_testBit_eq
  intro i
  rw [testBit_bits, Nat.testBit_and, testBit_fieldMask, shl32, testBit_u32,
    Nat.testBit_shiftLeft, Nat.testBit_mod_two_pow]
  by_cases hi : i < n
  · have h1 : p + i < 32 := by omega
    have h2 : p + i ≥ p := by omega
    have h3 : p + i - p = i := by omega
    simp [hi, h1, h2, h3]
  · simp [hi]

theorem ADC_RSQ0_RL_MASK_eq : ADC_RSQ0_RL_MASK = (2 ^ 4 - 1) <<< 20 := by decide

theorem ADC_ISQ_IL_MASK_eq : ADC_ISQ_IL_MASK = (2 ^ 2 - 1) <<< 20 := by decide

theorem bits_clear_RL (x s w : Nat) (h : s + w ≤ 20) :
    bits (x &&& not32 ADC_RSQ0_RL_MASK) s w = bits x s w := by
  rw [ADC_RSQ0_RL_MASK_eq]
  exact bits_clear_other 4 20 x s w (by omega) (Or.inl h)

theorem bits_clear_RL_self (x : Nat) : bits (x &&& not32 ADC_RSQ0_RL_MASK) 20 4 = 0 := by
  rw [ADC_RSQ0_RL_MASK_eq]
  exact bits_clear_self 4 20 x

theorem bits_RL_other (x s w : Nat) (h : s + w ≤ 20) :
    bits (x &&& ADC_RSQ0_RL_MASK) s w = 0 := by
  rw [ADC_RSQ0_RL_MASK_eq]
  exact bits_masked_other 4 20 x s w (Or.inl h)

theorem bits_RL_self (x : Nat) :
    bits (ADC_RSQ0_RL_VAL x &&& ADC_RSQ0_RL_MASK) 20 4 = sub32 x 1 % 2 ^ 4 := by
  rw [ADC_RSQ0_RL_MASK_eq]
  exact bits_masked_self 4 20 (sub32 x 1) (by decide)

theorem bits_clear_IL (x s w : Nat) (h : s + w ≤ 20) :
    bits (x &&& not32 ADC_ISQ_IL_MASK) s w = bits x s w := by
  rw [ADC_ISQ_IL_MASK_eq]
  exact bits_clear_other 2 20 x s w (by omega) (Or.inl h)

theorem bits_clear_IL_self (x : Nat) : bits (x &&& not32 ADC_ISQ_IL_MASK) 20 2 = 0 := by
  rw [ADC_ISQ_IL_MASK_eq]
  exact bits_clear_self 2 20 x

theorem bits_IL_other (x s w : Nat) (h : s + w ≤ 20) :
    bits (x &&& ADC_ISQ_IL_MASK) s w = 0 := by
  rw [ADC_ISQ_IL_MASK_eq]
  exact bits_masked_other 2 20 x s w (Or.inl h)

theorem bits_IL_self (x : Nat) :
    bits (ADC_ISQ_IL_VAL x &&& ADC_ISQ_IL_MASK) 20 2 = x % 2 ^ 2 := by
  rw [ADC_ISQ_IL_MASK_eq]
  exact bits_masked_self 2 20 x (by decide)

/-! ## One conditional `|=` step -/

theorem bits_orRSQ0_ite (r : AdcRegs) (c : Prop) [Decidable c] (v sk s w : Nat)
    (h : s + w ≤ 32) :
    bits (if c then orRSQ0 r (shl32 v sk) else r).RSQ0 s w
      = bits r.RSQ0 s w ||| bits (shl32 (if c then v else 0) sk) s w := by
  by_cases hc : c <;> simp [hc, orRSQ0, bits_u32 _ _ _ h, bits_or, shl32_zero, bits_zero]

theorem bits_orRSQ1_ite (r : AdcRegs) (c : Prop) [Decidable c] (v sk s w : Nat)
    (h : s + w ≤ 32) :
    bits (if c then orRSQ1 r (shl32 v sk) else r).RSQ1 s w
      = bits r.RSQ1 s w ||| bits (shl32 (if c then v else 0) sk) s w := by
  by_cases hc : c <;> simp [hc, orRSQ1, bits_u32 _ _ _ h, bits_or, shl32_zero, bits_zero]

theorem bits_orRSQ2_ite (r : AdcRegs) (c : Prop) [Decidable c] (v sk s w : Nat)
    (h : s + w ≤ 32) :
    bits (if c then orRSQ2 r (shl32 v sk) else r).RSQ2 s w
      = bits r.RSQ2 s w ||| bits (shl32 (if c then v else 0) sk) s w := by
  by_cases hc : c <;> simp [hc, orRSQ2, bits_u32 _ _ _ h, bits_or, shl32_zero, bits_zero]

theorem orRSQ0_ite_RSQ1 (r : AdcRegs) (c : Prop) [Decidable c] (v : Nat) :
    (if c then orRSQ0 r v else r).RSQ1 = r.RSQ1 := by
  by_cases hc : c <;> simp [hc, orRSQ0]

theorem orRSQ0_ite_RSQ2 (r : AdcRegs) (c : Prop) [Decidable c] (v : Nat) :
    (if c then orRSQ0 r v else r).RSQ2 = r.RSQ2 := by
  by_cases hc : c <;> simp [hc, orRSQ0]

theorem orRSQ1_ite_RSQ0 (r : AdcRegs) (c : Prop) [Decidable c] (v : Nat) :
    (if c then orRSQ1 r v else r).RSQ0 = r.RSQ0 := by
  by_cases hc : c <;> simp [hc, orRSQ1]

theorem orRSQ1_ite_RSQ2 (r : AdcRegs) (c : Prop) [Decidable c] (v : Nat) :
    (if c then orRSQ1 r v else r).RSQ2 = r.RSQ2 := by
  by_cases hc : c <;> simp [hc, orRSQ1]

theorem orRSQ2_ite_RSQ0 (r : AdcRegs) (c : Prop) [Decidable c] (v : Nat) :
    (if c then orRSQ2 r v else r).RSQ0 = r.RSQ0 := by
  by_cases hc : c <;> simp [hc, orRSQ2]

theorem orRSQ2_ite_RSQ1 (r : AdcRegs) (c : Prop) [Decidable c] (v : Nat) :
    (if c then orRSQ2 r v else r).RSQ1 = r.RSQ1 := by
  by_cases hc : c <;> simp [hc, orRSQ2]

theorem stepByte_def (L : Nat) (ch : Nat → Nat) (k : Nat) :
    (if k < u8 L then u8 (ch k) else 0) = stepByte L ch k := rfl

theorem regularSeqField_lo (r : AdcRegs) (i : Nat) (h : i < 6) :
    regularSeqField r i = bits r.RSQ2 (5 * i) 5 := by
  simp [regularSeqField, h]

theorem regularSeqField_mid (r : AdcRegs) (i : Nat) (h1 : 6 ≤ i) (h2 : i < 12) :
    regularSeqField r i = bits r.RSQ1 (5 * (i - 6)) 5 := by
  have : ¬ i < 6 := by omega
  simp [regularSeqField, h2, this]

theorem regularSeqField_hi (r : AdcRegs) (i : Nat) (h : 12 ≤ i) :
    regularSeqField r i = bits r.RSQ0 (5 * (i - 12)) 5 := by
  have h1 : ¬ i < 6 := by omega
  have h2 : ¬ i < 12 := by omega
  simp [regularSeqField, h1, h2]

/-- What `adc_set_regular_sequence` does to each sequence field, from any prior
content: the byte of the step is ORed into the field. -/
theorem regularSeqField_set (r : AdcRegs) (L : Nat) (ch : Nat → Nat)
    (hc : ∀ k, stepByte L ch k < 2 ^ 5) (i : Nat) (hi : i < 16) :
    regularSeqField (adc_set_regular_sequence r L ch) i
      = regularSeqField r i ||| stepByte L ch i := by
  by_cases h0 : u8 L = 0
  · have hz : stepByte L ch i = 0 := by simp [stepByte, h0]
    rw [hz]
    interval_cases i <;>
      simp [regularSeqField, adc_set_regular_sequence, h0, orRSQ0, bits_u32, bits_or,
        bits_clear_RL, bits_RL_other]
  · interval_cases i <;>
    · simp only [regularSeqField, Nat.reduceLT, if_true, if_false, Nat.reduceSub, Nat.reduceMul]
      simp only [adc_set_regular_sequence, h0, ite_false, if_false]
      simp only [bits_orRSQ2_ite, bits_orRSQ1_ite, bits_orRSQ0_ite, orRSQ0_ite_RSQ1,
        orRSQ0_ite_RSQ2, orRSQ1_ite_RSQ0, orRSQ1_ite_RSQ2, orRSQ2_ite_RSQ0, orRSQ2_ite_RSQ1,
        Nat.reduceLeDiff, Nat.reduceMul, Nat.reduceAdd, stepByte_def]
      simp [orRSQ0, bits_shl32_same 5 _ _ (hc _), bits_shl32_below 5 _ _ _ _ (hc _),
        bits_shl32_above, bits_u32, bits_or, bits_clear_RL, bits_RL_other,
        ADC_RSQ2_RSQ0_SHIFT, ADC_RSQ2_RSQ1_SHIFT, ADC_RSQ2_RSQ2_SHIFT, ADC_RSQ2_RSQ3_SHIFT,
        ADC_RSQ2_RSQ4_SHIFT, ADC_RSQ2_RSQ5_SHIFT, ADC_RSQ1_RSQ6_SHIFT, ADC_RSQ1_RSQ7_SHIFT,
        ADC_RSQ1_RSQ8_SHIFT, ADC_RSQ1_RSQ9_SHIFT, ADC_RSQ1_RSQ10_SHIFT, ADC_RSQ1_RSQ11_SHIFT,
        ADC_RSQ0_RSQ12_SHIFT, ADC_RSQ0_RSQ13_SHIFT, ADC_RSQ0_RSQ14_SHIFT, ADC_RSQ0_RSQ15_SHIFT]

/-- What `adc_set_regular_sequence` leaves in the RL field, from any prior content. -/
theorem regularLength_set (r : AdcRegs) (L : Nat) (ch : Nat → Nat)
    (hc : ∀ k, stepByte L ch k < 2 ^ 5) :
    regularLength (adc_set_regular_sequence r L ch) = sub32 (u8 L) 1 % 2 ^ 4 + 1 := by
  unfold regularLength
  refine congrArg (fun x => x + 1) ?_
  by_cases h0 : u8 L = 0
  · simp [adc_set_regular_sequence, h0, orRSQ0, bits_u32, bits_or, bits_clear_RL_self,
      bits_RL_self]
  · simp only [adc_set_regular_sequence, h0, ite_false, if_false]
    simp only [bits_orRSQ2_ite, bits_orRSQ1_ite, bits_orRSQ0_ite, orRSQ0_ite_RSQ1,
      orRSQ0_ite_RSQ2, orRSQ1_ite_RSQ0, orRSQ1_ite_RSQ2, orRSQ2_ite_RSQ0, orRSQ2_ite_RSQ1,
      Nat.reduceLeDiff, Nat.reduceMul, Nat.reduceAdd, stepByte_def]
    simp [orRSQ0, bits_shl32_below 5 _ _ _ _ (hc _), bits_u32, bits_or, bits_clear_RL_self,
      bits_RL_self, ADC_RSQ0_RSQ12_SHIFT, ADC_RSQ0_RSQ13_SHIFT, ADC_RSQ0_RSQ14_SHIFT,
      ADC_RSQ0_RSQ15_SHIFT]

theorem u8_of_lt {x : Nat} (h : x < 256) : u8 x = x := Nat.mod_eq_of_lt h

theorem stepByte_lt (L : Nat) (ch : Nat → Nat) (hc : ∀ i, i < L → ch i ≤ 18) (hL : L < 256)
    (k : Nat) : stepByte L ch k < 2 ^ 5 := by
  unfold stepByte
  rw [u8_of_lt hL]
  by_cases hk : k < L
  · have := hc k hk
    rw [if_pos hk, u8_of_lt (by omega)]
    omega
  · rw [if_neg hk]
    exact Nat.two_pow_pos 5

theorem stepByte_of_lt (L : Nat) (ch : Nat → Nat) (hc : ∀ i, i < L → ch i ≤ 18) (hL : L < 256)
    (k : Nat) (hk : k < L) : stepByte L ch k = ch k := by
  unfold stepByte
  have := hc k hk
  rw [u8_of_lt hL, if_pos hk, u8_of_lt (by omega)]

theorem stepByte_of_ge (L : Nat) (ch : Nat → Nat) (hL : L < 256)
    (k : Nat) (hk : L ≤ k) : stepByte L ch k = 0 := by
  unfold stepByte
  rw [u8_of_lt hL, if_neg (by omega)]

theorem regularSeqField_of_zero (r : AdcRegs) (h0 : r.RSQ0 = 0) (h1 : r.RSQ1 = 0)
    (h2 : r.RSQ2 = 0) (i : Nat) : regularSeqField r i = 0 := by
  unfold regularSeqField
  rw [h0, h1, h2]
  simp [bits_zero]

theorem sub32_one (x : Nat) (h1 : 1 ≤ x) (h2 : x < 4294967296) : sub32 x 1 = x - 1 := by
  unfold sub32 u32
  omega

/-! ## Inserted sequence -/

theorem bits_chan_same (v s : Nat) (hv : v < 32) (hs : s + 5 ≤ 32) :
    bits (shl32 v s) s 5 = v :=
  bits_shl32_same 5 v s hv hs

theorem bits_chan_below (v sk s w : Nat) (hv : v < 32) (hs : sk + 5 ≤ s) :
    bits (shl32 v sk) s w = 0 :=
  bits_shl32_below 5 v sk s w hv hs

theorem bits_orISQ (r : AdcRegs) (v s w : Nat) (h : s + w ≤ 32) :
    bits (orISQ r v).ISQ s w = bits r.ISQ s w ||| bits v s w := by
  simp [orISQ, bits_u32 _ _ _ h, bits_or]

theorem chan_byte_lt (L : Nat) (ch : Nat → Nat) (hc : ∀ i, i < L → ch i ≤ 18) :
    ∀ k, k < L → u8 (ch k) < 32 := by
  intro k hk
  have := hc k hk
  rw [u8_of_lt (by omega)]
  omega

theorem chan_byte_eq (L : Nat) (ch : Nat → Nat) (hc : ∀ i, i < L → ch i ≤ 18) :
    ∀ k, k < L → u8 (ch k) = ch k := by
  intro k hk
  have := hc k hk
  exact u8_of_lt (by omega)

/-- The IL field after `adc_set_inserted_sequence`, from any prior content. -/
theorem insertedIL_set (r : AdcRegs) (L : Nat) (ch : Nat → Nat) (h1 : 1 ≤ L) (h4 : L ≤ 4)
    (hc : ∀ i, i < L → ch i ≤ 18) :
    insertedIL (adc_set_inserted_sequence r L ch) = L - 1 := by
  have hb := chan_byte_lt L ch hc
  unfold insertedIL
  interval_cases L <;>
    simp [adc_set_inserted_sequence, u8_of_lt, sub32_one, bits_orISQ, bits_u32, bits_or,
      bits_clear_IL_self, bits_IL_self, bits_chan_below, hb, ADC_ISQ_ISQ0_SHIFT,
      ADC_ISQ_ISQ1_SHIFT, ADC_ISQ_ISQ2_SHIFT, ADC_ISQ_ISQ3_SHIFT]

/-- What `adc_set_inserted_sequence` does to each sequence field, from any prior
content: the channels are ORed into the topmost `L` fields. -/
theorem insertedSeqField_set (r : AdcRegs) (L : Nat) (ch : Nat → Nat) (h1 : 1 ≤ L)
    (h4 : L ≤ 4) (hc : ∀ i, i < L → ch i ≤ 18) (j : Nat) (hj : j < 4) :
    insertedSeqField (adc_set_inserted_sequence r L ch) j
      = insertedSeqField r j ||| (if 4 - L ≤ j then ch (j - (4 - L)) else 0) := by
  have hb : ∀ k, k < L → ch k < 32 := fun k hk => Nat.lt_of_le_of_lt (hc k hk) (by decide)
  have he := chan_byte_eq L ch hc
  unfold insertedSeqField
  interval_cases L <;> interval_cases j <;>
    simp [adc_set_inserted_sequence, u8_of_lt, sub32_one, bits_orISQ, bits_u32, bits_or,
      bits_clear_IL, bits_IL_other, bits_chan_below, bits_chan_same, bits_shl32_above, hb, he,
      ADC_ISQ_ISQ0_SHIFT, ADC_ISQ_ISQ1_SHIFT, ADC_ISQ_ISQ2_SHIFT, ADC_ISQ_ISQ3_SHIFT]

/-! ## Sample time (C1, C2) -/

/-- C1. Channel 0 is programmed to sample time 7 and is then set to time 0: the
field still reads 7, not `0 & 7 = 0`, because the `&=` keeps the old field. -/
theorem sample_time_field_not_replaced :
    sampleTimeField
      (adc_set_sample_time_on_channel { AdcRegs.zero with SAMPT1 := 7 } 0 0) 0 = 7 := by
  rfl

/-- C2. Channel 1 is programmed to sample time 7 and then channel 0 is set to
time 0: the field of channel 1 changes from 7 to 0. -/
theorem sample_time_clears_other_channel :
    sampleTimeField { AdcRegs.zero with SAMPT1 := 0x38 } 1 = 7 ∧
    sampleTimeField
      (adc_set_sample_time_on_channel { AdcRegs.zero with SAMPT1 := 0x38 } 0 0) 1 = 0 := by
  constructor <;> rfl

/-! ## Regular sequence (C3, C4, C5) -/

/-- C3. Position 0 holds channel 5 and the group is redefined as the single
channel 2: field 0 reads `5 | 2 = 7`, not 2. -/
theorem regular_sequence_ors_into_old_field :
    regularSeqField
      (adc_set_regular_sequence { AdcRegs.zero with RSQ2 := 5 } 1 (fun _ => 2)) 0 = 7 := by
  rfl

/-- C4. Round trip of the regular sequence encoding: from RSQ0 = RSQ1 = RSQ2 = 0,
for a length in 1..16 and channels in 0..18, the registers decode to that length
and to the first `length` channels, and every sequence field from `length` on
is 0. -/
theorem regular_sequence_round_trip (r : AdcRegs) (length : Nat) (channel : Nat → Nat)
    (h0 : r.RSQ0 = 0) (h1 : r.RSQ1 = 0) (h2 : r.RSQ2 = 0)
    (hl : 1 ≤ length) (hu : length ≤ 16) (hc : ∀ i, i < length → channel i ≤ 18) :
    regularLength (adc_set_regular_sequence r length channel) = length ∧
    regularSequence (adc_set_regular_sequence r length channel)
      = (List.range length).map channel ∧
    (∀ i, i < length →
      regularSeqField (adc_set_regular_sequence r length channel) i = channel i) ∧
    (∀ i, length ≤ i → i < 16 →
      regularSeqField (adc_set_regular_sequence r length channel) i = 0) := by
  have hL : length < 256 := by omega
  have hs := stepByte_lt length channel hc hL
  have hlen : regularLength (adc_set_regular_sequence r length channel) = length := by
    rw [regularLength_set r length channel hs, u8_of_lt hL, sub32_one length hl (by omega)]
    have : (2 : Nat) ^ 4 = 16 := by norm_num
    omega
  have hfld : ∀ i, i < length →
      regularSeqField (adc_set_regular_sequence r length channel) i = channel i := by
    intro i hi
    rw [regularSeqField_set r length channel hs i (by omega),
      regularSeqField_of_zero r h0 h1 h2, stepByte_of_lt length channel hc hL i hi]
    simp
  refine ⟨hlen, ?_, hfld, ?_⟩
  · unfold regularSequence
    rw [hlen]
    apply List.map_congr_left
    intro i hi
    exact hfld i (List.mem_range.mp hi)
  · intro i hi hi16
    rw [regularSeqField_set r length channel hs i hi16,
      regularSeqField_of_zero r h0 h1 h2, stepByte_of_ge length channel hL i hi]
    simp

/-- C4 at the group (4, 7, 18) written into cleared registers. -/
theorem regular_sequence_round_trip_witness :
    (AdcRegs.zero.RSQ0 = 0 ∧ AdcRegs.zero.RSQ1 = 0 ∧ AdcRegs.zero.RSQ2 = 0 ∧
      1 ≤ 3 ∧ 3 ≤ 16 ∧ ∀ i, i < 3 → group3 i ≤ 18) ∧
    regularLength (adc_set_regular_sequence AdcRegs.zero 3 group3) = 3 ∧
    regularSequence (adc_set_regular_sequence AdcRegs.zero 3 group3)
      = (List.range 3).map group3 ∧
    (∀ i, i < 3 → regularSeqField (adc_set_regular_sequence AdcRegs.zero 3 group3) i
        = group3 i) ∧
    (∀ i, 3 ≤ i → i < 16 →
      regularSeqField (adc_set_regular_sequence AdcRegs.zero 3 group3) i = 0) :=
  ⟨by decide, regular_sequence_round_trip AdcRegs.zero 3 group3 rfl rfl rfl
    (by decide) (by decide) (by decide)⟩

/-- C5, as stated, fails: a length of 17 is programmed as a group of 1. -/
theorem regular_length_17_reads_1 :
    regularLength (adc_set_regular_sequence AdcRegs.zero 17 (fun _ => 0)) = 1 ∧
    regularLength (adc_set_regular_sequence AdcRegs.zero 17 (fun _ => 0)) ≠ 17 := by
  decide

/-- C5, amended. For every length in 1..16, channels in 0..18 and every prior
register content, the programmed group length (RL + 1) equals the length. -/
theorem regular_length_programmed (r : AdcRegs) (length : Nat) (channel : Nat → Nat)
    (hl : 1 ≤ length) (hu : length ≤ 16) (hc : ∀ i, i < length → channel i ≤ 18) :
    regularLength (adc_set_regular_sequence r length channel) = length := by
  have hL : length < 256 := by omega
  rw [regularLength_set r length channel (stepByte_lt length channel hc hL), u8_of_lt hL,
    sub32_one length hl (by omega)]
  have : (2 : Nat) ^ 4 = 16 := by norm_num
  omega

/-- C5 amended, at a full group of 16 over an RSQ0 that is all ones. -/
theorem regular_length_programmed_witness :
    (1 ≤ 16 ∧ 16 ≤ 16 ∧ ∀ i, i < 16 → (fun k : Nat => k) i ≤ 18) ∧
    regularLength
      (adc_set_regular_sequence { AdcRegs.zero with RSQ0 := 0xFFFFFFFF } 16 (fun k => k)) = 16 :=
  ⟨by decide, regular_length_programmed { AdcRegs.zero with RSQ0 := 0xFFFFFFFF } 16 (fun k => k)
    (by decide) (by decide) (by decide)⟩

/-! ## Inserted sequence (C6, C7, C8) -/

/-- C6. Layout of the inserted sequence: from ISQ = 0, for a length `L` in 1..4
and channels in 0..18, IL reads `L - 1`, field `4 - L + i` holds `channel[i]` for
each `i < L`, and the fields below `4 - L` are 0. -/
theorem inserted_sequence_layout (r : AdcRegs) (L : Nat) (channel : Nat → Nat)
    (h0 : r.ISQ = 0) (h1 : 1 ≤ L) (h4 : L ≤ 4) (hc : ∀ i, i < L → channel i ≤ 18) :
    insertedIL (adc_set_inserted_sequence r L channel) = L - 1 ∧
    (∀ i, i < L →
      insertedSeqField (adc_set_inserted_sequence r L channel) (4 - L + i) = channel i) ∧
    (∀ j, j < 4 - L → insertedSeqField (adc_set_inserted_sequence r L channel) j = 0) := by
  have hz : ∀ j, insertedSeqField r j = 0 := by
    intro j
    simp [insertedSeqField, h0, bits_zero]
  refine ⟨insertedIL_set r L channel h1 h4 hc, ?_, ?_⟩
  · intro i hi
    rw [insertedSeqField_set r L channel h1 h4 hc (4 - L + i) (by omega), hz,
      if_pos (by omega)]
    have : 4 - L + i - (4 - L) = i := by omega
    simp [this]
  · intro j hj
    rw [insertedSeqField_set r L channel h1 h4 hc j (by omega), hz, if_neg (by omega)]
    simp

/-- C6 at the group (4, 7, 18) written into a cleared ISQ. -/
theorem inserted_sequence_layout_witness :
    (AdcRegs.zero.ISQ = 0 ∧ 1 ≤ 3 ∧ 3 ≤ 4 ∧ ∀ i, i < 3 → group3 i ≤ 18) ∧
    insertedIL (adc_set_inserted_sequence AdcRegs.zero 3 group3) = 3 - 1 ∧
    (∀ i, i < 3 →
      insertedSeqField (adc_set_inserted_sequence AdcRegs.zero 3 group3) (4 - 3 + i)
        = group3 i) ∧
    (∀ j, j < 4 - 3 → insertedSeqField (adc_set_inserted_sequence AdcRegs.zero 3 group3) j = 0) :=
  ⟨by decide,
    inserted_sequence_layout AdcRegs.zero 3 group3 rfl (by decide) (by decide) (by decide)⟩

/-- C7, as stated, fails: a length of 5 is programmed as a group of 1. -/
theorem inserted_length_5_reads_1 :
    insertedLength (adc_set_inserted_sequence AdcRegs.zero 5 (fun _ => 0)) = 1 ∧
    insertedLength (adc_set_inserted_sequence AdcRegs.zero 5 (fun _ => 0)) ≠ 5 := by
  decide

/-- C7, amended. For every length in 1..4, channels in 0..18 and every prior
register content, the programmed group length (IL + 1) equals the length. -/
theorem inserted_length_programmed (r : AdcRegs) (length : Nat) (channel : Nat → Nat)
    (hl : 1 ≤ length) (hu : length ≤ 4) (hc : ∀ i, i < length → channel i ≤ 18) :
    insertedLength (adc_set_inserted_sequence r length channel) = length := by
  unfold insertedLength
  rw [insertedIL_set r length channel hl hu hc]
  omega

/-- C7 amended, at a full group of 4 over an ISQ that is all ones. -/
theorem inserted_length_programmed_witness :
    (1 ≤ 4 ∧ 4 ≤ 4 ∧ ∀ i, i < 4 → (fun k : Nat => k) i ≤ 18) ∧
    insertedLength
      (adc_set_inserted_sequence { AdcRegs.zero with ISQ := 0xFFFFFFFF } 4 (fun k => k)) = 4 :=
  ⟨by decide, inserted_length_programmed { AdcRegs.zero with ISQ := 0xFFFFFFFF } 4 (fun k => k)
    (by decide) (by decide) (by decide)⟩

/-- C8. From ISQ = 0 the group (channel 1) and then the group (channel 2) are
programmed: ISQ ends as `3 << 15` (channel 3 in the last field), whereas
programming (channel 2) alone gives `2 << 15`. -/
theorem inserted_sequence_redefinition_ors :
    (adc_set_inserted_sequence
      (adc_set_inserted_sequence AdcRegs.zero 1 (fun _ => 1)) 1 (fun _ => 2)).ISQ = 3 <<< 15 ∧
    (adc_set_inserted_sequence AdcRegs.zero 1 (fun _ => 2)).ISQ = 2 <<< 15 := by
  decide

/-! ## Watchdog thresholds (C9, C10) -/

/-- C9. The documented high threshold 0xE00 is stored as 0, from every prior state. -/
theorem watchdog_high_threshold_0xE00_stores_0 (r : AdcRegs) :
    (adc_set_watchdog_high_threshold r 0xE00).WDHT = 0 := by
  rfl

/-- C10. The documented low threshold 0x200 is stored as 0, from every prior state. -/
theorem watchdog_low_threshold_0x200_stores_0 (r : AdcRegs) :
    (adc_set_watchdog_low_threshold r 0x200).WDLT = 0 := by
  rfl

/-! ## Single-bit masks -/

theorem testBit_one_shl (k i : Nat) : (1 <<< k).testBit i = decide (i = k) := by
  rw [Nat.one_shiftLeft, Nat.testBit_two_pow]
  by_cases h : i = k
  · simp [h]
  · have h2 : ¬ k = i := fun e => h e.symm
    simp [h, h2]

theorem testBit_ge32 {x : Nat} (hx : x < 4294967296) {i : Nat} (hi : 32 ≤ i) :
    x.testBit i = false := by
  have h : x < 2 ^ 32 := by norm_num; exact hx
  exact testBit_small h hi

theorem u32_lt (x : Nat) : u32 x < 4294967296 := Nat.mod_lt _ (by decide)

theorem testBit_setBit (x k i : Nat) :
    (u32 (x ||| 1 <<< k)).testBit i = (decide (i < 32) && (x.testBit i || decide (i = k))) := by
  rw [testBit_u32, Nat.testBit_or, testBit_one_shl]

theorem testBit_clearBit (x k i : Nat) :
    (u32 (x &&& not32 (1 <<< k))).testBit i
      = (decide (i < 32) && (x.testBit i && !decide (i = k))) := by
  rw [testBit_u32, Nat.testBit_and, testBit_not32, testBit_one_shl]
  cases decide (i < 32) <;> simp

/-- The store `REG |= 1 << k` sets bit `k` and keeps the other bits. -/
theorem bitSetOnly_or (x k : Nat) (hx : x < 4294967296) (hk : k < 32) :
    bitSetOnly x (u32 (x ||| 1 <<< k)) k := by
  constructor
  · simp [testBit_setBit, hk]
  · intro i hi
    rw [testBit_setBit]
    by_cases h32 : i < 32
    · simp [h32, hi]
    · simp [h32, testBit_ge32 hx (Nat.le_of_not_lt h32)]

/-- The store `REG &= ~(1 << k)` clears bit `k` and keeps the other bits. -/
theorem bitClearOnly_and (x k : Nat) (hx : x < 4294967296) :
    bitClearOnly x (u32 (x &&& not32 (1 <<< k))) k := by
  constructor
  · simp [testBit_clearBit]
  · intro i hi
    rw [testBit_clearBit]
    by_cases h32 : i < 32
    · simp [h32, hi]
    · simp [h32, testBit_ge32 hx (Nat.le_of_not_lt h32)]

/-- The test `(x & (1 << k)) != 0` reads bit `k`. -/
theorem flag_test (x k : Nat) : decide (x &&& 1 <<< k ≠ 0) = x.testBit k := by
  have h : x &&& 1 <<< k = if x.testBit k then 2 ^ k else 0 := by
    apply Nat.eq_of_testBit_eq
    intro i
    rw [Nat.testBit_and, testBit_one_shl]
    by_cases hb : x.testBit k = true
    · rw [if_pos hb, Nat.testBit_two_pow]
      by_cases hi : i = k
      · subst hi
        simp [hb]
      · have h2 : ¬ k = i := fun e => hi e.symm
        simp [hi, h2]
    · rw [if_neg hb]
      by_cases hi : i = k
      · subst hi
        simp [hb]
      · simp [hi]
  rw [h]
  by_cases hb : x.testBit k = true
  · have : 2 ^ k ≠ 0 := Nat.pos_iff_ne_zero.mp (Nat.two_pow_pos k)
    simp [hb, this]
  · simp [hb]

/-! ## The flag constants as bit positions -/

theorem testBit_ADC_STAT_STRC (i : Nat) : ADC_STAT_STRC.testBit i = decide (i = 4) :=
  testBit_one_shl 4 i

theorem testBit_ADC_STAT_STIC (i : Nat) : ADC_STAT_STIC.testBit i = decide (i = 3) :=
  testBit_one_shl 3 i

theorem testBit_ADC_STAT_EOIC (i : Nat) : ADC_STAT_EOIC.testBit i = decide (i = 2) :=
  testBit_one_shl 2 i

theorem testBit_ADC_STAT_EOC (i : Nat) : ADC_STAT_EOC.testBit i = decide (i = 1) :=
  testBit_one_shl 1 i

theorem testBit_ADC_STAT_WDE (i : Nat) : ADC_STAT_WDE.testBit i = decide (i = 0) :=
  testBit_one_shl 0 i

theorem testBit_ADC_CTL0_DISIC (i : Nat) : ADC_CTL0_DISIC.testBit i = decide (i = 12) :=
  testBit_one_shl 12 i

theorem testBit_ADC_CTL0_DISRC (i : Nat) : ADC_CTL0_DISRC.testBit i = decide (i = 11) :=
  testBit_one_shl 11 i

theorem testBit_ADC_CTL0_SM (i : Nat) : ADC_CTL0_SM.testBit i = decide (i = 8) :=
  testBit_one_shl 8 i

theorem testBit_ADC_CTL0_EOICIE (i : Nat) : ADC_CTL0_EOICIE.testBit i = decide (i = 7) :=
  testBit_one_shl 7 i

theorem testBit_ADC_CTL0_WDEIE (i : Nat) : ADC_CTL0_WDEIE.testBit i = decide (i = 6) :=
  testBit_one_shl 6 i

theorem testBit_ADC_CTL0_EOCIE (i : Nat) : ADC_CTL0_EOCIE.testBit i = decide (i = 5) :=
  testBit_one_shl 5 i

theorem testBit_ADC_CTL1_VBATEN (i : Nat) : ADC_CTL1_VBATEN.testBit i = decide (i = 24) :=
  testBit_one_shl 24 i

theorem testBit_ADC_CTL1_TSVREN (i : Nat) : ADC_CTL1_TSVREN.testBit i = decide (i = 23) :=
  testBit_one_shl 23 i

theorem testBit_ADC_CTL1_SWRCST (i : Nat) : ADC_CTL1_SWRCST.testBit i = decide (i = 22) :=
  testBit_one_shl 22 i

theorem testBit_ADC_CTL1_ETERC (i : Nat) : ADC_CTL1_ETERC.testBit i = decide (i = 20) :=
  testBit_one_shl 20 i

theorem testBit_ADC_CTL1_DAL (i : Nat) : ADC_CTL1_DAL.testBit i = decide (i = 11) :=
  testBit_one_shl 11 i

theorem testBit_ADC_CTL1_DMA (i : Nat) : ADC_CTL1_DMA.testBit i = decide (i = 8) :=
  testBit_one_shl 8 i

theorem testBit_ADC_CTL1_CTN (i : Nat) : ADC_CTL1_CTN.testBit i = decide (i = 1) :=
  testBit_one_shl 1 i

theorem testBit_ADC_CTL1_ADCON (i : Nat) : ADC_CTL1_ADCON.testBit i = decide (i = 0) :=
  testBit_one_shl 0 i

/-! ## Status flags (C11, C12, C13, C14) -/

/-- C11. After `adc_clear_eoc_sequence_flag` the register STAT holds `ADC_STAT_EOC`,
so `adc_get_eoc_sequence_flag` returns true, from every prior state. -/
theorem clear_eoc_leaves_eoc_set (r : AdcRegs) :
    (adc_clear_eoc_sequence_flag r).STAT = 2 ∧
    adc_get_eoc_sequence_flag (adc_clear_eoc_sequence_flag r) = true := by
  constructor
  · rfl
  · simp [adc_get_eoc_sequence_flag, adc_clear_eoc_sequence_flag, ADC_STAT_EOC, u32]

/-- C12. With WDE, EOIC, STIC and STRC set (STAT = 0x1D), all four flags read
true before `adc_clear_eoc_sequence_flag` and false after it. -/
theorem clear_eoc_clears_other_flags :
    (adc_get_watchdog_flag { AdcRegs.zero with STAT := 0x1D } = true ∧
      adc_get_eoic_sequence_flag { AdcRegs.zero with STAT := 0x1D } = true ∧
      adc_get_strc_flag { AdcRegs.zero with STAT := 0x1D } = true ∧
      adc_get_stic_flag { AdcRegs.zero with STAT := 0x1D } = true) ∧
    (adc_get_watchdog_flag
        (adc_clear_eoc_sequence_flag { AdcRegs.zero with STAT := 0x1D }) = false ∧
      adc_get_eoic_sequence_flag
        (adc_clear_eoc_sequence_flag { AdcRegs.zero with STAT := 0x1D }) = false ∧
      adc_get_strc_flag
        (adc_clear_eoc_sequence_flag { AdcRegs.zero with STAT := 0x1D }) = false ∧
      adc_get_stic_flag
        (adc_clear_eoc_sequence_flag { AdcRegs.zero with STAT := 0x1D }) = false) := by
  refine ⟨⟨?_, ?_, ?_, ?_⟩, ⟨?_, ?_, ?_, ?_⟩⟩ <;> rfl

/-- C13. For each of WDE, EOIC, STRC and STIC and every 32-bit STAT: after the
clear function of the flag its getter returns false, every other bit of STAT is
as before, and every other register is as before. -/
theorem clear_flag_clears_only_its_bit (r : AdcRegs) (h : r.STAT < 4294967296) :
    (adc_get_watchdog_flag (adc_clear_watchdog_flag r) = false ∧
      bitClearOnly r.STAT (adc_clear_watchdog_flag r).STAT 0 ∧
      sameButSTAT r (adc_clear_watchdog_flag r)) ∧
    (adc_get_eoic_sequence_flag (adc_clear_eoic_sequence_flag r) = false ∧
      bitClearOnly r.STAT (adc_clear_eoic_sequence_flag r).STAT 2 ∧
      sameButSTAT r (adc_clear_eoic_sequence_flag r)) ∧
    (adc_get_strc_flag (adc_clear_strc_flag r) = false ∧
      bitClearOnly r.STAT (adc_clear_strc_flag r).STAT 4 ∧
      sameButSTAT r (adc_clear_strc_flag r)) ∧
    (adc_get_stic_flag (adc_clear_stic_flag r) = false ∧
      bitClearOnly r.STAT (adc_clear_stic_flag r).STAT 3 ∧
      sameButSTAT r (adc_clear_stic_flag r)) := by
  have h0 := bitClearOnly_and r.STAT 0 h
  have h2 := bitClearOnly_and r.STAT 2 h
  have h4 := bitClearOnly_and r.STAT 4 h
  have h3 := bitClearOnly_and r.STAT 3 h
  refine ⟨⟨?_, h0, rfl⟩, ⟨?_, h2, rfl⟩, ⟨?_, h4, rfl⟩, ⟨?_, h3, rfl⟩⟩
  · exact (flag_test _ 0).trans h0.1
  · exact (flag_test _ 2).trans h2.1
  · exact (flag_test _ 4).trans h4.1
  · exact (flag_test _ 3).trans h3.1

/-- C13 at a STAT with all five flags set. -/
theorem clear_flag_clears_only_its_bit_witness :
    ({ AdcRegs.zero with STAT := 0x1F } : AdcRegs).STAT < 4294967296 ∧
    ((adc_get_watchdog_flag (adc_clear_watchdog_flag { AdcRegs.zero with STAT := 0x1F }) = false ∧
      bitClearOnly ({ AdcRegs.zero with STAT := 0x1F } : AdcRegs).STAT
        (adc_clear_watchdog_flag { AdcRegs.zero with STAT := 0x1F }).STAT 0 ∧
      sameButSTAT { AdcRegs.zero with STAT := 0x1F }
        (adc_clear_watchdog_flag { AdcRegs.zero with STAT := 0x1F })) ∧
    (adc_get_eoic_sequence_flag
        (adc_clear_eoic_sequence_flag { AdcRegs.zero with STAT := 0x1F }) = false ∧
      bitClearOnly ({ AdcRegs.zero with STAT := 0x1F } : AdcRegs).STAT
        (adc_clear_eoic_sequence_flag { AdcRegs.zero with STAT := 0x1F }).STAT 2 ∧
      sameButSTAT { AdcRegs.zero with STAT := 0x1F }
        (adc_clear_eoic_sequence_flag { AdcRegs.zero with STAT := 0x1F })) ∧
    (adc_get_strc_flag (adc_clear_strc_flag { AdcRegs.zero with STAT := 0x1F }) = false ∧
      bitClearOnly ({ AdcRegs.zero with STAT := 0x1F } : AdcRegs).STAT
        (adc_clear_strc_flag { AdcRegs.zero with STAT := 0x1F }).STAT 4 ∧
      sameButSTAT { AdcRegs.zero with STAT := 0x1F }
        (adc_clear_strc_flag { AdcRegs.zero with STAT := 0x1F })) ∧
    (adc_get_stic_flag (adc_clear_stic_flag { AdcRegs.zero with STAT := 0x1F }) = false ∧
      bitClearOnly ({ AdcRegs.zero with STAT := 0x1F } : AdcRegs).STAT
        (adc_clear_stic_flag { AdcRegs.zero with STAT := 0x1F }).STAT 3 ∧
      sameButSTAT { AdcRegs.zero with STAT := 0x1F }
        (adc_clear_stic_flag { AdcRegs.zero with STAT := 0x1F }))) :=
  ⟨by decide, clear_flag_clears_only_its_bit { AdcRegs.zero with STAT := 0x1F } (by decide)⟩

/-- C14. For every STAT the getters of WDE, EOC, EOIC, STIC and STRC return
true exactly when bit 0, 1, 2, 3 and 4 of STAT is set. A getter is a function
of the register block alone and has no store in its body. -/
theorem flag_getters_read_their_bit (r : AdcRegs) :
    adc_get_watchdog_flag r = r.STAT.testBit 0 ∧
    adc_get_eoc_sequence_flag r = r.STAT.testBit 1 ∧
    adc_get_eoic_sequence_flag r = r.STAT.testBit 2 ∧
    adc_get_stic_flag r = r.STAT.testBit 3 ∧
    adc_get_strc_flag r = r.STAT.testBit 4 :=
  ⟨flag_test _ 0, flag_test _ 1, flag_test _ 2, flag_test _ 3, flag_test _ 4⟩

/-! ## Operation mode (C15) -/

/-- C15. For each mode and every 32-bit CTL0 and CTL1, after
`adc_set_operation_mode`: SM (CTL0 bit 8) is set iff the mode is SCAN or
SCAN_CONTINUOUS, CTN (CTL1 bit 1) is set iff the mode is CONTINUOUS or
SCAN_CONTINUOUS, DISIC and DISRC (CTL0 bits 12 and 11) are clear, and every
other bit of CTL0 and CTL1 and every other register is as before. -/
theorem set_operation_mode_bits (r : AdcRegs) (m : adc_opmode)
    (h0 : r.CTL0 < 4294967296) (h1 : r.CTL1 < 4294967296) :
    ((adc_set_operation_mode r m).CTL0.testBit 8 = true ↔
      (m = .ADC_MODE_SCAN ∨ m = .ADC_MODE_SCAN_CONTINUOUS)) ∧
    ((adc_set_operation_mode r m).CTL1.testBit 1 = true ↔
      (m = .ADC_MODE_CONTINUOUS ∨ m = .ADC_MODE_SCAN_CONTINUOUS)) ∧
    (adc_set_operation_mode r m).CTL0.testBit 12 = false ∧
    (adc_set_operation_mode r m).CTL0.testBit 11 = false ∧
    (∀ i, i ≠ 8 → i ≠ 11 → i ≠ 12 →
      (adc_set_operation_mode r m).CTL0.testBit i = r.CTL0.testBit i) ∧
    (∀ i, i ≠ 1 → (adc_set_operation_mode r m).CTL1.testBit i = r.CTL1.testBit i) ∧
    sameButCTL r (adc_set_operation_mode r m) := by
  have g0 : ∀ i, ¬ i < 32 → r.CTL0.testBit i = false :=
    fun i hi => testBit_ge32 h0 (Nat.le_of_not_lt hi)
  have g1 : ∀ i, ¬ i < 32 → r.CTL1.testBit i = false :=
    fun i hi => testBit_ge32 h1 (Nat.le_of_not_lt hi)
  cases m <;> refine ⟨?_, ?_, ?_, ?_, ?_, ?_, rfl⟩ <;>
    simp only [adc_set_operation_mode, andCTL0, orCTL0, andCTL1, orCTL1, testBit_u32,
      testBit_not32, Nat.testBit_and, Nat.testBit_or, testBit_ADC_CTL0_DISIC,
      testBit_ADC_CTL0_DISRC, testBit_ADC_CTL0_SM, testBit_ADC_CTL1_CTN] <;>
    first
      | (intro i hi8 hi11 hi12
         by_cases h32 : i < 32
         · simp [h32, hi8, hi11, hi12]
         · simp [h32, g0 i h32])
      | (intro i hi1
         by_cases h32 : i < 32
         · simp [h32, hi1]
         · simp [h32, g1 i h32])
      | simp

/-- C15 at the mode SCAN_CONTINUOUS over control registers that are all ones. -/
theorem set_operation_mode_bits_witness :
    (({ AdcRegs.zero with CTL0 := 0xFFFFFFFF, CTL1 := 0xFFFFFFFF } : AdcRegs).CTL0 < 4294967296 ∧
      ({ AdcRegs.zero with CTL0 := 0xFFFFFFFF, CTL1 := 0xFFFFFFFF } : AdcRegs).CTL1
        < 4294967296) ∧
    (adc_set_operation_mode { AdcRegs.zero with CTL0 := 0xFFFFFFFF, CTL1 := 0xFFFFFFFF }
      .ADC_MODE_SCAN_CONTINUOUS).CTL0.testBit 12 = false :=
  ⟨by decide,
    (set_operation_mode_bits { AdcRegs.zero with CTL0 := 0xFFFFFFFF, CTL1 := 0xFFFFFFFF }
      .ADC_MODE_SCAN_CONTINUOUS (by decide) (by decide)).2.2.1⟩

/-! ## Regular discontinuous mode (C16, C17) -/

theorem ADC_CTL0_DISNUM_eq : ADC_CTL0_DISNUM = (2 ^ 3 - 1) <<< 13 := by decide

theorem discontinuous_guard_passes (length : Nat) (hl : 1 ≤ length) (hu : length ≤ 8) :
    ¬ toInt32 (sub32 (u8 length) 1) > 7 := by
  interval_cases length <;> decide

theorem discontinuous_CTL0 (r : AdcRegs) (length : Nat) (hl : 1 ≤ length) (hu : length ≤ 8) :
    (adc_enable_regular_discontinuous_mode r length).CTL0
      = u32 (u32 (u32 (r.CTL0 ||| 1 <<< 11) &&& not32 ((2 ^ 3 - 1) <<< 13))
          ||| shl32 (length - 1) 13) := by
  have hg := discontinuous_guard_passes length hl hu
  have hs : sub32 (u8 length) 1 = length - 1 := by
    rw [u8_of_lt (by omega), sub32_one length hl (by omega)]
  simp only [adc_enable_regular_discontinuous_mode, if_neg hg, orCTL0, andCTL0,
    ADC_CTL0_DISNUM_VAL, ADC_CTL0_DISNUM_SHIFT, ADC_CTL0_DISNUM_eq]
  rw [hs]
  rfl

/-- C16. For every length in 1..8 and every 32-bit CTL0, after
`adc_enable_regular_discontinuous_mode`: DISRC (CTL0 bit 11) is set, DISNUM
(CTL0 bits 13..15) equals `length - 1`, and every other bit of CTL0 and every
other register is as before. -/
theorem regular_discontinuous_mode_set (r : AdcRegs) (length : Nat)
    (hl : 1 ≤ length) (hu : length ≤ 8) (h0 : r.CTL0 < 4294967296) :
    (adc_enable_regular_discontinuous_mode r length).CTL0.testBit 11 = true ∧
    bits (adc_enable_regular_discontinuous_mode r length).CTL0 13 3 = length - 1 ∧
    (∀ i, i ≠ 11 → ¬ (13 ≤ i ∧ i ≤ 15) →
      (adc_enable_regular_discontinuous_mode r length).CTL0.testBit i = r.CTL0.testBit i) ∧
    sameButCTL0 r (adc_enable_regular_discontinuous_mode r length) := by
  have hv : length - 1 < 2 ^ 3 := by
    have : (2 : Nat) ^ 3 = 8 := by norm_num
    omega
  have hr := discontinuous_CTL0 r length hl hu
  have tb : ∀ i, (adc_enable_regular_discontinuous_mode r length).CTL0.testBit i
      = (decide (i < 32) && ((decide (i < 32) && ((decide (i < 32) &&
          (r.CTL0.testBit i || decide (i = 11))) &&
          (decide (i < 32) && !(decide (i ≥ 13) && decide (i - 13 < 3))))) ||
          (decide (i < 32) && (decide (i ≥ 13) && (length - 1).testBit (i - 13))))) := by
    intro i
    rw [hr, testBit_u32, Nat.testBit_or, testBit_u32, Nat.testBit_and, testBit_u32,
      Nat.testBit_or, testBit_one_shl, testBit_not32, testBit_fieldMask, shl32, testBit_u32,
      Nat.testBit_shiftLeft]
  refine ⟨?_, ?_, ?_, ?_⟩
  · rw [tb]
    simp
  · rw [hr, bits_u32 _ _ _ (by decide), bits_or, bits_u32 _ _ _ (by decide),
      bits_clear_self 3 13, bits_shl32_same 3 _ 13 hv (by decide)]
    simp
  · intro i hi hni
    rw [tb]
    have e1 : (decide (i ≥ 13) && decide (i - 13 < 3)) = false := by
      have : ¬ (i ≥ 13 ∧ i - 13 < 3) := by omega
      simpa using this
    have e2 : (decide (i ≥ 13) && (length - 1).testBit (i - 13)) = false := by
      by_cases h13 : i ≥ 13
      · have : (length - 1).testBit (i - 13) = false := testBit_small hv (by omega)
        simp [this]
      · simp [h13]
    rw [e1, e2]
    by_cases h32 : i < 32
    · simp [h32, hi]
    · simp [h32, testBit_ge32 h0 (Nat.le_of_not_lt h32)]
  · unfold sameButCTL0 adc_enable_regular_discontinuous_mode
    simp only [if_neg (discontinuous_guard_passes length hl hu), orCTL0, andCTL0]

/-- C16 at a subgroup of 8 over a CTL0 that is all ones. -/
theorem regular_discontinuous_mode_set_witness :
    (1 ≤ 8 ∧ 8 ≤ 8 ∧ ({ AdcRegs.zero with CTL0 := 0xFFFFFFFF } : AdcRegs).CTL0 < 4294967296) ∧
    bits (adc_enable_regular_discontinuous_mode { AdcRegs.zero with CTL0 := 0xFFFFFFFF } 8).CTL0
      13 3 = 8 - 1 :=
  ⟨by decide, (regular_discontinuous_mode_set { AdcRegs.zero with CTL0 := 0xFFFFFFFF } 8
    (by decide) (by decide) (by decide)).2.1⟩

/-- The lengths 9..255 are rejected: the register block is returned as it is. -/
theorem regular_discontinuous_mode_rejects_above_8 (r : AdcRegs) (length : Nat)
    (hl : 9 ≤ length) (hu : length ≤ 255) :
    adc_enable_regular_discontinuous_mode r length = r := by
  have hs : sub32 (u8 length) 1 = length - 1 := by
    rw [u8_of_lt (by omega), sub32_one length (by omega) (by omega)]
  have hg : toInt32 (sub32 (u8 length) 1) > 7 := by
    rw [hs]
    unfold toInt32 u32
    have : (length - 1) % 4294967296 = length - 1 := Nat.mod_eq_of_lt (by omega)
    rw [this, if_pos (by omega)]
    omega
  simp only [adc_enable_regular_discontinuous_mode, if_pos hg]

/-- C17. The length 0 is not rejected: `(0 - 1) > 7` compares the `int` -1 with 7,
the function goes on and, from CTL0 = 0, leaves DISRC and bits 13..31 set. -/
theorem regular_discontinuous_mode_length_0_not_rejected :
    (adc_enable_regular_discontinuous_mode AdcRegs.zero 0).CTL0 = 0xFFFFE800 ∧
    adc_enable_regular_discontinuous_mode AdcRegs.zero 0 ≠ AdcRegs.zero := by
  decide

/-! ## External trigger of the regular group (C18) -/

theorem ADC_CTL1_ETSRC_MASK_eq : ADC_CTL1_ETSRC_MASK = (2 ^ 3 - 1) <<< 17 := by decide

/-- Masking to the field `n` at `p` keeps that field. -/
theorem bits_masked_val (n p x : Nat) : bits (x &&& ((2 ^ n - 1) <<< p)) p n = bits x p n := by
  apply Nat.eq_of_testBit_eq
  intro i
  rw [testBit_bits, testBit_bits, Nat.testBit_and, testBit_fieldMask]
  by_cases hi : i < n
  · have h2 : p + i ≥ p ∧ p + i - p < n := by omega
    have h3 : (decide (p + i ≥ p) && decide (p + i - p < n)) = true := by
      simpa using h2
    rw [h3]
    simp
  · simp [hi]

theorem external_trigger_regular_CTL1 (r : AdcRegs) (trigger : Nat) :
    (adc_enable_external_trigger_regular r trigger).CTL1
      = u32 (u32 (u32 (r.CTL1 &&& not32 ((2 ^ 3 - 1) <<< 17))
          ||| (u32 trigger &&& ((2 ^ 3 - 1) <<< 17))) ||| 1 <<< 20) := by
  simp only [adc_enable_external_trigger_regular, orCTL1, andCTL1, ADC_CTL1_ETSRC_MASK_eq]
  rfl

/-- C18. For every trigger value and every 32-bit CTL1, after
`adc_enable_external_trigger_regular`: bits 17..19 of CTL1 (ETSRC) equal bits
17..19 of the trigger, ETERC (bit 20) is set, and every other bit of CTL1 and
every other register is as before. -/
theorem enable_external_trigger_regular_bits (r : AdcRegs) (trigger : Nat)
    (h1 : r.CTL1 < 4294967296) :
    bits (adc_enable_external_trigger_regular r trigger).CTL1 17 3 = bits trigger 17 3 ∧
    (adc_enable_external_trigger_regular r trigger).CTL1.testBit 20 = true ∧
    (∀ i, ¬ (17 ≤ i ∧ i ≤ 20) →
      (adc_enable_external_trigger_regular r trigger).CTL1.testBit i = r.CTL1.testBit i) ∧
    sameButCTL1 r (adc_enable_external_trigger_regular r trigger) := by
  have hr := external_trigger_regular_CTL1 r trigger
  have tb : ∀ i, (adc_enable_external_trigger_regular r trigger).CTL1.testBit i
      = (decide (i < 32) && ((decide (i < 32) && ((decide (i < 32) &&
          (r.CTL1.testBit i && (decide (i < 32) && !(decide (i ≥ 17) && decide (i - 17 < 3))))) ||
          ((decide (i < 32) && trigger.testBit i) &&
            (decide (i ≥ 17) && decide (i - 17 < 3))))) || decide (i = 20))) := by
    intro i
    rw [hr, testBit_u32, Nat.testBit_or, testBit_u32, Nat.testBit_or, testBit_u32,
      Nat.testBit_and, testBit_not32, testBit_fieldMask, Nat.testBit_and, testBit_u32,
      testBit_fieldMask, testBit_one_shl]
  have hz : bits (1 <<< 20) 17 3 = 0 := by decide
  refine ⟨?_, ?_, ?_, rfl⟩
  · rw [hr, bits_u32 _ _ _ (by decide), bits_or, hz, bits_u32 _ _ _ (by decide), bits_or,
      bits_u32 _ _ _ (by decide), bits_clear_self 3 17, bits_masked_val 3 17,
      bits_u32 _ _ _ (by decide)]
    simp
  · rw [tb]
    simp
  · intro i hni
    rw [tb]
    have e1 : (decide (i ≥ 17) && decide (i - 17 < 3)) = false := by
      have : ¬ (i ≥ 17 ∧ i - 17 < 3) := by omega
      simpa using this
    have e2 : decide (i = 20) = false := by
      have : ¬ i = 20 := by omega
      simpa using this
    rw [e1, e2]
    by_cases h32 : i < 32
    · simp [h32]
    · simp [h32, testBit_ge32 h1 (Nat.le_of_not_lt h32)]

/-- C18 at the trigger `ADC_CTL1_ETSRC_EXTI11` (6 << 17) over a CTL1 that is all ones. -/
theorem enable_external_trigger_regular_bits_witness :
    ({ AdcRegs.zero with CTL1 := 0xFFFFFFFF } : AdcRegs).CTL1 < 4294967296 ∧
    bits (adc_enable_external_trigger_regular { AdcRegs.zero with CTL1 := 0xFFFFFFFF }
      (6 <<< 17)).CTL1 17 3 = bits (6 <<< 17) 17 3 :=
  ⟨by decide, (enable_external_trigger_regular_bits { AdcRegs.zero with CTL1 := 0xFFFFFFFF }
    (6 <<< 17) (by decide)).1⟩

/-! ## Single-bit enable and disable pairs (C19) -/

/-- C19. For every 32-bit CTL0 and CTL1, the first function of each pair sets
its bit, the second clears it, and no other bit of any register changes:
ADCON (CTL1 bit 0), DAL (11), DMA (8), TSVREN (23), VBATEN (24); WDEIE (CTL0
bit 6), EOCIE (5), EOICIE (7), DISIC (12). -/
theorem enable_disable_pairs_touch_one_bit (r : AdcRegs)
    (h0 : r.CTL0 < 4294967296) (h1 : r.CTL1 < 4294967296) :
    (setsBitCTL1 adc_power_on r 0 ∧ clearsBitCTL1 adc_power_off r 0) ∧
    (setsBitCTL1 adc_set_left_aligned r 11 ∧ clearsBitCTL1 adc_set_right_aligned r 11) ∧
    (setsBitCTL1 adc_enable_dma r 8 ∧ clearsBitCTL1 adc_disable_dma r 8) ∧
    (setsBitCTL1 adc_enable_vref_temperature_sensor r 23 ∧ clearsBitCTL1 adc_disable_vref_temperature_sensor r 23) ∧
    (setsBitCTL1 adc_enable_vbat_sensor r 24 ∧ clearsBitCTL1 adc_disable_vbat_sensor r 24) ∧
    (setsBitCTL0 adc_enable_watchdog_interrupt r 6 ∧ clearsBitCTL0 adc_disable_watchdog_interrupt r 6) ∧
    (setsBitCTL0 adc_enable_eoc_sequence_interrupt r 5 ∧ clearsBitCTL0 adc_disable_eoc_sequence_interrupt r 5) ∧
    (setsBitCTL0 adc_enable_eoic_sequence_interrupt r 7 ∧ clearsBitCTL0 adc_disable_eoic_sequence_interrupt r 7) ∧
    (setsBitCTL0 adc_enable_inserted_discontinuous_mode r 12 ∧ clearsBitCTL0 adc_disable_inserted_discontinuous_mode r 12) :=
  ⟨⟨⟨bitSetOnly_or r.CTL1 0 h1 (by decide), rfl⟩, ⟨bitClearOnly_and r.CTL1 0 h1, rfl⟩⟩,
    ⟨⟨bitSetOnly_or r.CTL1 11 h1 (by decide), rfl⟩, ⟨bitClearOnly_and r.CTL1 11 h1, rfl⟩⟩,
    ⟨⟨bitSetOnly_or r.CTL1 8 h1 (by decide), rfl⟩, ⟨bitClearOnly_and r.CTL1 8 h1, rfl⟩⟩,
    ⟨⟨bitSetOnly_or r.CTL1 23 h1 (by decide), rfl⟩, ⟨bitClearOnly_and r.CTL1 23 h1, rfl⟩⟩,
    ⟨⟨bitSetOnly_or r.CTL1 24 h1 (by decide), rfl⟩, ⟨bitClearOnly_and r.CTL1 24 h1, rfl⟩⟩,
    ⟨⟨bitSetOnly_or r.CTL0 6 h0 (by decide), rfl⟩, ⟨bitClearOnly_and r.CTL0 6 h0, rfl⟩⟩,
    ⟨⟨bitSetOnly_or r.CTL0 5 h0 (by decide), rfl⟩, ⟨bitClearOnly_and r.CTL0 5 h0, rfl⟩⟩,
    ⟨⟨bitSetOnly_or r.CTL0 7 h0 (by decide), rfl⟩, ⟨bitClearOnly_and r.CTL0 7 h0, rfl⟩⟩,
    ⟨⟨bitSetOnly_or r.CTL0 12 h0 (by decide), rfl⟩, ⟨bitClearOnly_and r.CTL0 12 h0, rfl⟩⟩⟩

/-- C19 at CTL0 = 0x00C0FFEE and CTL1 = 0x0BADF00D. -/
theorem enable_disable_pairs_touch_one_bit_witness :
    (sampleRegs.CTL0 < 4294967296 ∧ sampleRegs.CTL1 < 4294967296) ∧
    (setsBitCTL1 adc_power_on sampleRegs 0 ∧ clearsBitCTL1 adc_power_off sampleRegs 0) ∧
    (setsBitCTL1 adc_set_left_aligned sampleRegs 11 ∧ clearsBitCTL1 adc_set_right_aligned sampleRegs 11) ∧
    (setsBitCTL1 adc_enable_dma sampleRegs 8 ∧ clearsBitCTL1 adc_disable_dma sampleRegs 8) ∧
    (setsBitCTL1 adc_enable_vref_temperature_sensor sampleRegs 23 ∧ clearsBitCTL1 adc_disable_vref_temperature_sensor sampleRegs 23) ∧
    (setsBitCTL1 adc_enable_vbat_sensor sampleRegs 24 ∧ clearsBitCTL1 adc_disable_vbat_sensor sampleRegs 24) ∧
    (setsBitCTL0 adc_enable_watchdog_interrupt sampleRegs 6 ∧ clearsBitCTL0 adc_disable_watchdog_interrupt sampleRegs 6) ∧
    (setsBitCTL0 adc_enable_eoc_sequence_interrupt sampleRegs 5 ∧ clearsBitCTL0 adc_disable_eoc_sequence_interrupt sampleRegs 5) ∧
    (setsBitCTL0 adc_enable_eoic_sequence_interrupt sampleRegs 7 ∧ clearsBitCTL0 adc_disable_eoic_sequence_interrupt sampleRegs 7) ∧
    (setsBitCTL0 adc_enable_inserted_discontinuous_mode sampleRegs 12 ∧ clearsBitCTL0 adc_disable_inserted_discontinuous_mode sampleRegs 12) :=
  ⟨by decide, enable_disable_pairs_touch_one_bit sampleRegs (by decide) (by decide)⟩

/-! ## Software start of the regular group (C20) -/

/-- The wait loop returns at its first test when STRC is set and never otherwise. -/
theorem start_conversion_regular_wait_eq (fuel : Nat) (r : AdcRegs) :
    adc_start_conversion_regular_wait fuel r
      = if fuel = 0 then none else if adc_get_strc_flag r = true then some r else none := by
  induction fuel with
  | zero => rfl
  | succ n ih =>
    rw [adc_start_conversion_regular_wait, ih]
    by_cases hf : adc_get_strc_flag r = true
    · simp [hf]
    · have hf2 : adc_get_strc_flag r = false := by simpa using hf
      by_cases hn : n = 0 <;> simp [hf2, hn]

theorem start_conversion_regular_strc (r : AdcRegs) :
    adc_get_strc_flag (orCTL1 r ADC_CTL1_SWRCST) = r.STAT.testBit 4 :=
  flag_test r.STAT 4

/-- C20. With STAT left alone while the function runs, `adc_start_conversion_regular`
returns iff STRC (STAT bit 4) is set on entry (then at the first test of the
loop, whatever the fuel), and whenever it returns CTL1 is its prior value with
SWRCST (bit 22) set and no other register has changed. -/
theorem start_conversion_regular_returns (r : AdcRegs) (h1 : r.CTL1 < 4294967296) :
    ((∃ fuel r', adc_start_conversion_regular fuel r = some r') ↔ r.STAT.testBit 4 = true) ∧
    (r.STAT.testBit 4 = true →
      ∀ fuel, 1 ≤ fuel → adc_start_conversion_regular fuel r = some (orCTL1 r ADC_CTL1_SWRCST)) ∧
    (r.STAT.testBit 4 = false → ∀ fuel, adc_start_conversion_regular fuel r = none) ∧
    (∀ fuel r', adc_start_conversion_regular fuel r = some r' →
      bitSetOnly r.CTL1 r'.CTL1 22 ∧ sameButCTL1 r r') := by
  have hrun : ∀ fuel, adc_start_conversion_regular fuel r
      = if fuel = 0 then none
        else if r.STAT.testBit 4 = true then some (orCTL1 r ADC_CTL1_SWRCST) else none := by
    intro fuel
    rw [adc_start_conversion_regular, start_conversion_regular_wait_eq,
      start_conversion_regular_strc]
  have hset : ∀ fuel, 1 ≤ fuel → r.STAT.testBit 4 = true →
      adc_start_conversion_regular fuel r = some (orCTL1 r ADC_CTL1_SWRCST) := by
    intro fuel hf hb
    rw [hrun, if_neg (by omega), if_pos hb]
  have hclr : r.STAT.testBit 4 = false → ∀ fuel, adc_start_conversion_regular fuel r = none := by
    intro hb fuel
    rw [hrun]
    by_cases hf : fuel = 0
    · rw [if_pos hf]
    · rw [if_neg hf, if_neg (by simp [hb])]
  refine ⟨⟨?_, ?_⟩, fun hb fuel hf => hset fuel hf hb, hclr, ?_⟩
  · rintro ⟨fuel, r', hr'⟩
    by_cases hb : r.STAT.testBit 4 = true
    · exact hb
    · have hb2 : r.STAT.testBit 4 = false := by simpa using hb
      rw [hclr hb2 fuel] at hr'
      exact absurd hr' (by simp)
  · intro hb
    exact ⟨1, _, hset 1 (Nat.le_refl 1) hb⟩
  · intro fuel r' hr'
    by_cases hb : r.STAT.testBit 4 = true
    · by_cases hf : fuel = 0
      · rw [hrun, if_pos hf] at hr'
        exact absurd hr' (by simp)
      · rw [hset fuel (by omega) hb] at hr'
        have e : r' = orCTL1 r ADC_CTL1_SWRCST := (Option.some.inj hr').symm
        subst e
        exact ⟨bitSetOnly_or r.CTL1 22 h1 (by decide), rfl⟩
    · have hb2 : r.STAT.testBit 4 = false := by simpa using hb
      rw [hclr hb2 fuel] at hr'
      exact absurd hr' (by simp)

/-- C20 at a block whose STRC flag is set: the function returns. -/
theorem start_conversion_regular_returns_witness :
    sampleRegs.CTL1 < 4294967296 ∧
    ((∃ fuel r', adc_start_conversion_regular fuel sampleRegs = some r') ↔
      sampleRegs.STAT.testBit 4 = true) ∧
    adc_start_conversion_regular 1 sampleRegs = some (orCTL1 sampleRegs ADC_CTL1_SWRCST) :=
  ⟨by decide, (start_conversion_regular_returns sampleRegs (by decide)).1,
    (start_conversion_regular_returns sampleRegs (by decide)).2.1 (by decide) 1 (by decide)⟩

/-! ## Consistency of the bit-layout table (C21) -/

/-- C21. The computed shifts agree with the named ones: `ADC_SAMPT1_SPT_SHIFT(n)`
is `ADC_SAMPT1_SPTn_SHIFT` for n = 0..9 and `ADC_SAMPT0_SPT_SHIFT(n)` is
`ADC_SAMPT0_SPTn_SHIFT` for n = 10..17; the named RSQ shift of position i is
`5 * (i mod 6)` for i = 0..15 and the ISQ shift of position i is `5 * i` for
i = 0..3; and in each register the 3-bit or 5-bit fields and the RL / IL field
are pairwise disjoint and lie inside 32 bits. -/
theorem bit_layout_table_consistent :
    (List.range 10).map ADC_SAMPT1_SPT_SHIFT = sampt1NamedShifts ∧
    [10, 11, 12, 13, 14, 15, 16, 17].map ADC_SAMPT0_SPT_SHIFT = sampt0NamedShifts ∧
    rsqNamedShifts = (List.range 16).map (fun i => 5 * (i % 6)) ∧
    isqNamedShifts = (List.range 4).map (fun i => 5 * i) ∧
    disjointIn32 sampt1FieldMasks ∧
    disjointIn32 sampt0FieldMasks ∧
    disjointIn32 rsq2FieldMasks ∧
    disjointIn32 rsq1FieldMasks ∧
    disjointIn32 rsq0FieldMasks ∧
    disjointIn32 isqFieldMasks := by
  refine ⟨by decide, by decide, by decide, by decide, ?_, ?_, ?_, ?_, ?_, ?_⟩ <;>
    (unfold disjointIn32; decide)

end Gd32Adc
